import Mathlib

/-!
Verification of the data model of the legal-practice manager
(`src/app/models.py`): persistent entities, enumerated category sets and
non-persistent "Create" validation schemas, embedded as Lean structures and
executable functions.  Construction, validation and serialization routines
that the source delegates to an external framework or caller are modelled
from the specification where their doc comment says so.
-/

namespace App

/-- Fixed-point decimal number `mant / 10 ^ scale`, mirroring Python
`decimal.Decimal` with a non-positive exponent: `Decimal("100.00")` is
`⟨10000, 2⟩`, `Decimal("2.5")` is `⟨25, 1⟩`. -/
structure Decimal where
  mant : Int
  scale : Nat
deriving DecidableEq

/-- Numeric value of a decimal, as a rational. -/
def Decimal.toRat (d : Decimal) : ℚ := (d.mant : ℚ) / (10 : ℚ) ^ d.scale

/-- Exact decimal multiplication, as Python `Decimal.__mul__`
(mantissas multiply, scales add). -/
def Decimal.mul (a b : Decimal) : Decimal :=
  ⟨a.mant * b.mant, a.scale + b.scale⟩

/-- Exact decimal addition, as Python `Decimal.__add__`
(operands are aligned to the larger scale). -/
def Decimal.add (a b : Decimal) : Decimal :=
  ⟨a.mant * 10 ^ (max a.scale b.scale - a.scale)
    + b.mant * 10 ^ (max a.scale b.scale - b.scale), max a.scale b.scale⟩

/-- Exact division by `10 ^ k` (used for `markup_percentage / 100`). -/
def Decimal.divPow10 (d : Decimal) (k : Nat) : Decimal :=
  ⟨d.mant, d.scale + k⟩

/-- Constant `Decimal("1")`. -/
def Decimal.one : Decimal := ⟨1, 0⟩

/-- Constant `Decimal("0")`, the declared default of `markup_percentage`,
`subtotal_time`, `subtotal_expenses`, `current_balance`, `debit_amount`
and `credit_amount`. -/
def Decimal.zero : Decimal := ⟨0, 0⟩

/-- Timestamps are modelled as an abstract instant count; entity logic never
computes with them. -/
abbrev DateTime := Int

-- ## Enumerated category sets (models.py lines 9-76)

inductive UserRole where
  | firm_admin | managing_partner | attorney | paralegal | accounting_staff
  | client | hr_representative | company_manager | individual_employee
deriving DecidableEq

/-- Declared string token of each `UserRole` member (models.py 9-18). -/
def UserRole.toStr : UserRole → String
  | .firm_admin => "firm_admin"
  | .managing_partner => "managing_partner"
  | .attorney => "attorney"
  | .paralegal => "paralegal"
  | .accounting_staff => "accounting_staff"
  | .client => "client"
  | .hr_representative => "hr_representative"
  | .company_manager => "company_manager"
  | .individual_employee => "individual_employee"

/-- The closed value set of `UserRole`. -/
def UserRole.values : List String :=
  ["firm_admin", "managing_partner", "attorney", "paralegal",
   "accounting_staff", "client", "hr_representative", "company_manager",
   "individual_employee"]

/-- Parse a raw string into a `UserRole`; anything outside the declared set
is rejected. -/
def UserRole.ofString (s : String) : Option UserRole :=
  if s = "firm_admin" then some .firm_admin
  else if s = "managing_partner" then some .managing_partner
  else if s = "attorney" then some .attorney
  else if s = "paralegal" then some .paralegal
  else if s = "accounting_staff" then some .accounting_staff
  else if s = "client" then some .client
  else if s = "hr_representative" then some .hr_representative
  else if s = "company_manager" then some .company_manager
  else if s = "individual_employee" then some .individual_employee
  else none

inductive ClientType where
  | individual | organization
deriving DecidableEq

def ClientType.toStr : ClientType → String
  | .individual => "individual"
  | .organization => "organization"

def ClientType.values : List String := ["individual", "organization"]

def ClientType.ofString (s : String) : Option ClientType :=
  if s = "individual" then some .individual
  else if s = "organization" then some .organization
  else none

inductive CaseStatus where
  | pending | active | completed | stopped
deriving DecidableEq

def CaseStatus.toStr : CaseStatus → String
  | .pending => "pending"
  | .active => "active"
  | .completed => "completed"
  | .stopped => "stopped"

def CaseStatus.values : List String :=
  ["pending", "active", "completed", "stopped"]

def CaseStatus.ofString (s : String) : Option CaseStatus :=
  if s = "pending" then some .pending
  else if s = "active" then some .active
  else if s = "completed" then some .completed
  else if s = "stopped" then some .stopped
  else none

inductive ActivityBillableStatus where
  | non_billable | billable | billed
deriving DecidableEq

def ActivityBillableStatus.toStr : ActivityBillableStatus → String
  | .non_billable => "non_billable"
  | .billable => "billable"
  | .billed => "billed"

def ActivityBillableStatus.values : List String :=
  ["non_billable", "billable", "billed"]

def ActivityBillableStatus.ofString (s : String) : Option ActivityBillableStatus :=
  if s = "non_billable" then some .non_billable
  else if s = "billable" then some .billable
  else if s = "billed" then some .billed
  else none

inductive ActivityStatus where
  | pending | in_progress | completed | cancelled
deriving DecidableEq

def ActivityStatus.toStr : ActivityStatus → String
  | .pending => "pending"
  | .in_progress => "in_progress"
  | .completed => "completed"
  | .cancelled => "cancelled"

def ActivityStatus.values : List String :=
  ["pending", "in_progress", "completed", "cancelled"]

def ActivityStatus.ofString (s : String) : Option ActivityStatus :=
  if s = "pending" then some .pending
  else if s = "in_progress" then some .in_progress
  else if s = "completed" then some .completed
  else if s = "cancelled" then some .cancelled
  else none

inductive BillingModel where
  | hourly | flat_fee | contingency | retainer
deriving DecidableEq

def BillingModel.toStr : BillingModel → String
  | .hourly => "hourly"
  | .flat_fee => "flat_fee"
  | .contingency => "contingency"
  | .retainer => "retainer"

def BillingModel.values : List String :=
  ["hourly", "flat_fee", "contingency", "retainer"]

def BillingModel.ofString (s : String) : Option BillingModel :=
  if s = "hourly" then some .hourly
  else if s = "flat_fee" then some .flat_fee
  else if s = "contingency" then some .contingency
  else if s = "retainer" then some .retainer
  else none

inductive ExpenseType where
  | reimbursable | non_reimbursable
deriving DecidableEq

def ExpenseType.toStr : ExpenseType → String
  | .reimbursable => "reimbursable"
  | .non_reimbursable => "non_reimbursable"

def ExpenseType.values : List String := ["reimbursable", "non_reimbursable"]

def ExpenseType.ofString (s : String) : Option ExpenseType :=
  if s = "reimbursable" then some .reimbursable
  else if s = "non_reimbursable" then some .non_reimbursable
  else none

inductive ResourceType where
  | attorney | paralegal | admin
deriving DecidableEq

def ResourceType.toStr : ResourceType → String
  | .attorney => "attorney"
  | .paralegal => "paralegal"
  | .admin => "admin"

def ResourceType.values : List String := ["attorney", "paralegal", "admin"]

def ResourceType.ofString (s : String) : Option ResourceType :=
  if s = "attorney" then some .attorney
  else if s = "paralegal" then some .paralegal
  else if s = "admin" then some .admin
  else none

inductive TransactionType where
  | payment | refund | adjustment | billing
deriving DecidableEq

def TransactionType.toStr : TransactionType → String
  | .payment => "payment"
  | .refund => "refund"
  | .adjustment => "adjustment"
  | .billing => "billing"

def TransactionType.values : List String :=
  ["payment", "refund", "adjustment", "billing"]

def TransactionType.ofString (s : String) : Option TransactionType :=
  if s = "payment" then some .payment
  else if s = "refund" then some .refund
  else if s = "adjustment" then some .adjustment
  else if s = "billing" then some .billing
  else none

inductive AccountType where
  | asset | liability | equity | revenue | expense
deriving DecidableEq

def AccountType.toStr : AccountType → String
  | .asset => "asset"
  | .liability => "liability"
  | .equity => "equity"
  | .revenue => "revenue"
  | .expense => "expense"

def AccountType.values : List String :=
  ["asset", "liability", "equity", "revenue", "expense"]

def AccountType.ofString (s : String) : Option AccountType :=
  if s = "asset" then some .asset
  else if s = "liability" then some .liability
  else if s = "equity" then some .equity
  else if s = "revenue" then some .revenue
  else if s = "expense" then some .expense
  else none

/-- The category sets declared by the model, in source order
(models.py lines 9-76), each with the field concept it restricts. -/
def categorySets : List (String × List String) :=
  [("role", UserRole.values),
   ("client_type", ClientType.values),
   ("case_status", CaseStatus.values),
   ("billable_status", ActivityBillableStatus.values),
   ("activity_status", ActivityStatus.values),
   ("billing_model", BillingModel.values),
   ("expense_type", ExpenseType.values),
   ("resource_type", ResourceType.values),
   ("transaction_type", TransactionType.values),
   ("account_type", AccountType.values)]

-- ## Persistent entities (models.py lines 80-493)
-- Relationship accessors (ORM navigation) are not data fields and are not
-- embedded; every column field is, with its source name, type and
-- optionality.  `id` is optional because storage assigns it on creation.

/-- Entity `User` (models.py 80-98). -/
structure User where
  id : Option Int
  email : String
  first_name : String
  last_name : String
  role : UserRole
  is_active : Bool
  phone : Option String
  hourly_rate : Option Decimal
  created_at : DateTime
  updated_at : DateTime
deriving DecidableEq

/-- Entity `Client` (models.py 102-134). -/
structure Client where
  id : Option Int
  client_type : ClientType
  first_name : Option String
  last_name : Option String
  date_of_birth : Option DateTime
  organization_name : Option String
  tax_id : Option String
  email : Option String
  phone : Option String
  address_line1 : Option String
  address_line2 : Option String
  city : Option String
  state : Option String
  zip_code : Option String
  country : Option String
  is_active : Bool
  created_at : DateTime
  updated_at : DateTime
deriving DecidableEq

/-- Entity `BeneficiaryRelationship` (models.py 137-148). -/
structure BeneficiaryRelationship where
  id : Option Int
  beneficiary_id : Int
  dependent_id : Int
  relationship_type : String
  created_at : DateTime
deriving DecidableEq

/-- Entity `CaseType` (models.py 152-165). -/
structure CaseType where
  id : Option Int
  name : String
  description : Option String
  default_billing_model : BillingModel
  default_hourly_rate : Option Decimal
  default_flat_fee : Option Decimal
  is_active : Bool
  created_at : DateTime
deriving DecidableEq

/-- Entity `Case` (models.py 168-202). -/
structure Case where
  id : Option Int
  case_number : String
  title : String
  description : Option String
  status : CaseStatus
  client_id : Int
  case_type_id : Int
  assigned_attorney_id : Option Int
  billing_model : BillingModel
  hourly_rate : Option Decimal
  flat_fee : Option Decimal
  contingency_percentage : Option Decimal
  retainer_amount : Option Decimal
  opened_date : Option DateTime
  closed_date : Option DateTime
  created_at : DateTime
  updated_at : DateTime
deriving DecidableEq

/-- Entity `OpposingParty` (models.py 205-235). -/
structure OpposingParty where
  id : Option Int
  case_id : Int
  party_type : ClientType
  first_name : Option String
  last_name : Option String
  organization_name : Option String
  email : Option String
  phone : Option String
  address_line1 : Option String
  city : Option String
  state : Option String
  counsel_name : Option String
  counsel_firm : Option String
  counsel_email : Option String
  counsel_phone : Option String
  created_at : DateTime
deriving DecidableEq

/-- Entity `Jurisdiction` (models.py 238-248). -/
structure Jurisdiction where
  id : Option Int
  name : String
  jurisdiction_type : String
  description : Option String
  created_at : DateTime
deriving DecidableEq

/-- Entity `CaseJurisdiction` (models.py 251-262). -/
structure CaseJurisdiction where
  id : Option Int
  case_id : Int
  jurisdiction_id : Int
  is_primary : Bool
  created_at : DateTime
deriving DecidableEq

/-- Entity `Document` (models.py 265-280). -/
structure Document where
  id : Option Int
  case_id : Int
  title : String
  description : Option String
  file_path : String
  file_name : String
  file_size : Int
  mime_type : String
  uploaded_by_id : Int
  uploaded_at : DateTime
deriving DecidableEq

/-- Entity `Activity` (models.py 284-310). -/
structure Activity where
  id : Option Int
  case_id : Int
  assigned_user_id : Option Int
  title : String
  description : Option String
  activity_type : String
  status : ActivityStatus
  billable_status : ActivityBillableStatus
  due_date : Option DateTime
  completed_date : Option DateTime
  is_court_date : Bool
  is_critical_deadline : Bool
  created_at : DateTime
  updated_at : DateTime
deriving DecidableEq

/-- Entity `TimeEntry` (models.py 313-333). -/
structure TimeEntry where
  id : Option Int
  activity_id : Int
  user_id : Int
  hours : Decimal
  rate_per_hour : Decimal
  total_amount : Decimal
  description : String
  date : DateTime
  billable_status : ActivityBillableStatus
  created_at : DateTime
deriving DecidableEq

/-- Entity `Expense` (models.py 337-361). -/
structure Expense where
  id : Option Int
  case_id : Int
  user_id : Int
  description : String
  expense_type : ExpenseType
  amount : Decimal
  markup_percentage : Decimal
  total_amount : Decimal
  expense_date : DateTime
  category : String
  vendor : Option String
  receipt_file_path : Option String
  is_reimbursed : Bool
  created_at : DateTime
deriving DecidableEq

/-- Entity `Invoice` (models.py 365-388). -/
structure Invoice where
  id : Option Int
  case_id : Int
  invoice_number : String
  invoice_date : DateTime
  due_date : DateTime
  subtotal_time : Decimal
  subtotal_expenses : Decimal
  total_amount : Decimal
  status : String
  notes : Option String
  created_at : DateTime
  sent_at : Option DateTime
  paid_at : Option DateTime
deriving DecidableEq

/-- Entity `InvoiceLineItem` (models.py 391-414). -/
structure InvoiceLineItem where
  id : Option Int
  invoice_id : Int
  time_entry_id : Option Int
  expense_id : Option Int
  line_type : String
  date : DateTime
  resource_name : String
  resource_type : ResourceType
  description : String
  quantity : Decimal
  rate : Decimal
  amount : Decimal
  created_at : DateTime
deriving DecidableEq

/-- Entity `TrustAccount` (models.py 418-430). -/
structure TrustAccount where
  id : Option Int
  account_name : String
  account_number : String
  bank_name : String
  current_balance : Decimal
  is_active : Bool
  created_at : DateTime
deriving DecidableEq

/-- Entity `TrustTransaction` (models.py 433-450). -/
structure TrustTransaction where
  id : Option Int
  trust_account_id : Int
  case_id : Int
  transaction_type : TransactionType
  amount : Decimal
  description : String
  reference_number : Option String
  transaction_date : DateTime
  created_at : DateTime
deriving DecidableEq

/-- Entity `Account` (models.py 454-470), the self-referential general-ledger
chart-of-accounts node. -/
structure Account where
  id : Option Int
  account_number : String
  account_name : String
  account_type : AccountType
  parent_account_id : Option Int
  description : Option String
  is_active : Bool
  created_at : DateTime
deriving DecidableEq

/-- Entity `JournalEntry` (models.py 473-493). -/
structure JournalEntry where
  id : Option Int
  account_id : Int
  entry_date : DateTime
  reference_number : Option String
  description : String
  debit_amount : Decimal
  credit_amount : Decimal
  source_type : Option String
  source_id : Option Int
  created_at : DateTime
  created_by_id : Int
deriving DecidableEq

-- ## Non-persistent "Create" validation schemas (models.py lines 497-561)

/-- Schema `UserCreate` (models.py 497-503). -/
structure UserCreate where
  email : String
  first_name : String
  last_name : String
  role : UserRole
  phone : Option String
  hourly_rate : Option Decimal
deriving DecidableEq

/-- Schema `ClientCreate` (models.py 506-512). -/
structure ClientCreate where
  client_type : ClientType
  first_name : Option String
  last_name : Option String
  organization_name : Option String
  email : Option String
  phone : Option String
deriving DecidableEq

/-- Schema `CaseCreate` (models.py 515-522). -/
structure CaseCreate where
  case_number : String
  title : String
  description : Option String
  client_id : Int
  case_type_id : Int
  assigned_attorney_id : Option Int
  billing_model : BillingModel
deriving DecidableEq

/-- Schema `ActivityCreate` (models.py 525-533). -/
structure ActivityCreate where
  case_id : Int
  assigned_user_id : Option Int
  title : String
  description : Option String
  activity_type : String
  due_date : Option DateTime
  is_court_date : Bool
  is_critical_deadline : Bool
deriving DecidableEq

/-- Schema `TimeEntryCreate` (models.py 536-542). -/
structure TimeEntryCreate where
  activity_id : Int
  user_id : Int
  hours : Decimal
  rate_per_hour : Decimal
  description : String
  date : DateTime
deriving DecidableEq

/-- Schema `ExpenseCreate` (models.py 545-554). -/
structure ExpenseCreate where
  case_id : Int
  user_id : Int
  description : String
  expense_type : ExpenseType
  amount : Decimal
  markup_percentage : Decimal
  expense_date : DateTime
  category : String
  vendor : Option String
deriving DecidableEq

/-- Schema `InvoiceCreate` (models.py 557-561). -/
structure InvoiceCreate where
  case_id : Int
  invoice_date : DateTime
  due_date : DateTime
  notes : Option String
deriving DecidableEq

-- ## Raw payloads and validation
-- A raw external payload may omit any field; category fields arrive as raw
-- strings.  The validators below apply the framework's semantics, which is
-- fixed by the field declarations of models.py: a missing required field or
-- an unknown category token is rejected with the offending field's name,
-- and an absent optional field takes its declared default.

/-- Raw payload aimed at `UserCreate`. -/
structure UserCreatePayload where
  email : Option String
  first_name : Option String
  last_name : Option String
  role : Option String
  phone : Option String
  hourly_rate : Option Decimal
deriving DecidableEq

/-- Raw payload aimed at `ClientCreate`. -/
structure ClientCreatePayload where
  client_type : Option String
  first_name : Option String
  last_name : Option String
  organization_name : Option String
  email : Option String
  phone : Option String
deriving DecidableEq

/-- Raw payload aimed at `CaseCreate`. -/
structure CaseCreatePayload where
  case_number : Option String
  title : Option String
  description : Option String
  client_id : Option Int
  case_type_id : Option Int
  assigned_attorney_id : Option Int
  billing_model : Option String
deriving DecidableEq

/-- Raw payload aimed at `ActivityCreate`. -/
structure ActivityCreatePayload where
  case_id : Option Int
  assigned_user_id : Option Int
  title : Option String
  description : Option String
  activity_type : Option String
  due_date : Option DateTime
  is_court_date : Option Bool
  is_critical_deadline : Option Bool
deriving DecidableEq

/-- Raw payload aimed at `TimeEntryCreate`. -/
structure TimeEntryCreatePayload where
  activity_id : Option Int
  user_id : Option Int
  hours : Option Decimal
  rate_per_hour : Option Decimal
  description : Option String
  date : Option DateTime
deriving DecidableEq

/-- Raw payload aimed at `ExpenseCreate`. -/
structure ExpenseCreatePayload where
  case_id : Option Int
  user_id : Option Int
  description : Option String
  expense_type : Option String
  amount : Option Decimal
  markup_percentage : Option Decimal
  expense_date : Option DateTime
  category : Option String
  vendor : Option String
deriving DecidableEq

/-- Raw payload aimed at `InvoiceCreate`. -/
structure InvoiceCreatePayload where
  case_id : Option Int
  invoice_date : Option DateTime
  due_date : Option DateTime
  notes : Option String
deriving DecidableEq

/-- Returns `true` exactly on a rejected validation result. -/
def isError {α : Type} : Except String α → Bool
  | .error _ => true
  | .ok _ => false

/-- Validation of a raw `UserCreate` payload against the declarations of
models.py 497-503: `email`, `first_name`, `last_name`, `role` required,
`role` restricted to `UserRole.values`, `phone` and `hourly_rate` default
to absent. -/
def validateUserCreate (p : UserCreatePayload) : Except String UserCreate :=
  match p.email with
  | none => .error "email"
  | some email =>
    match p.first_name with
    | none => .error "first_name"
    | some first_name =>
      match p.last_name with
      | none => .error "last_name"
      | some last_name =>
        match p.role with
        | none => .error "role"
        | some roleStr =>
          match UserRole.ofString roleStr with
          | none => .error "role"
          | some role =>
            .ok ⟨email, first_name, last_name, role, p.phone, p.hourly_rate⟩

/-- Validation of a raw `ClientCreate` payload (models.py 506-512):
`client_type` required and restricted to `ClientType.values`, all other
fields default to absent. -/
def validateClientCreate (p : ClientCreatePayload) : Except String ClientCreate :=
  match p.client_type with
  | none => .error "client_type"
  | some ctStr =>
    match ClientType.ofString ctStr with
    | none => .error "client_type"
    | some client_type =>
      .ok ⟨client_type, p.first_name, p.last_name, p.organization_name,
           p.email, p.phone⟩

/-- Validation of a raw `CaseCreate` payload (models.py 515-522):
`case_number`, `title`, `client_id`, `case_type_id`, `billing_model`
required, `billing_model` restricted to `BillingModel.values`. -/
def validateCaseCreate (p : CaseCreatePayload) : Except String CaseCreate :=
  match p.case_number with
  | none => .error "case_number"
  | some case_number =>
    match p.title with
    | none => .error "title"
    | some title =>
      match p.client_id with
      | none => .error "client_id"
      | some client_id =>
        match p.case_type_id with
        | none => .error "case_type_id"
        | some case_type_id =>
          match p.billing_model with
          | none => .error "billing_model"
          | some bmStr =>
            match BillingModel.ofString bmStr with
            | none => .error "billing_model"
            | some billing_model =>
              .ok ⟨case_number, title, p.description, client_id,
                   case_type_id, p.assigned_attorney_id, billing_model⟩

/-- Validation of a raw `ActivityCreate` payload (models.py 525-533):
`case_id`, `title`, `activity_type` required; `is_court_date` and
`is_critical_deadline` default to `false`, the rest to absent. -/
def validateActivityCreate (p : ActivityCreatePayload) : Except String ActivityCreate :=
  match p.case_id with
  | none => .error "case_id"
  | some case_id =>
    match p.title with
    | none => .error "title"
    | some title =>
      match p.activity_type with
      | none => .error "activity_type"
      | some activity_type =>
        .ok ⟨case_id, p.assigned_user_id, title, p.description,
             activity_type, p.due_date, p.is_court_date.getD false,
             p.is_critical_deadline.getD false⟩

/-- Validation of a raw `TimeEntryCreate` payload (models.py 536-542):
every declared field is required. -/
def validateTimeEntryCreate (p : TimeEntryCreatePayload) : Except String TimeEntryCreate :=
  match p.activity_id with
  | none => .error "activity_id"
  | some activity_id =>
    match p.user_id with
    | none => .error "user_id"
    | some user_id =>
      match p.hours with
      | none => .error "hours"
      | some hours =>
        match p.rate_per_hour with
        | none => .error "rate_per_hour"
        | some rate_per_hour =>
          match p.description with
          | none => .error "description"
          | some description =>
            match p.date with
            | none => .error "date"
            | some date =>
              .ok ⟨activity_id, user_id, hours, rate_per_hour,
                   description, date⟩

/-- Validation of a raw `ExpenseCreate` payload (models.py 545-554):
`case_id`, `user_id`, `description`, `expense_type`, `amount`,
`expense_date`, `category` required; `markup_percentage` defaults to
`Decimal("0")`, `vendor` to absent. -/
def validateExpenseCreate (p : ExpenseCreatePayload) : Except String ExpenseCreate :=
  match p.case_id with
  | none => .error "case_id"
  | some case_id =>
    match p.user_id with
    | none => .error "user_id"
    | some user_id =>
      match p.description with
      | none => .error "description"
      | some description =>
        match p.expense_type with
        | none => .error "expense_type"
        | some etStr =>
          match ExpenseType.ofString etStr with
          | none => .error "expense_type"
          | some expense_type =>
            match p.amount with
            | none => .error "amount"
            | some amount =>
              match p.expense_date with
              | none => .error "expense_date"
              | some expense_date =>
                match p.category with
                | none => .error "category"
                | some category =>
                  .ok ⟨case_id, user_id, description, expense_type, amount,
                       p.markup_percentage.getD Decimal.zero, expense_date,
                       category, p.vendor⟩

/-- Validation of a raw `InvoiceCreate` payload (models.py 557-561):
`case_id`, `invoice_date`, `due_date` required, `notes` defaults to
absent. -/
def validateInvoiceCreate (p : InvoiceCreatePayload) : Except String InvoiceCreate :=
  match p.case_id with
  | none => .error "case_id"
  | some case_id =>
    match p.invoice_date with
    | none => .error "invoice_date"
    | some invoice_date =>
      match p.due_date with
      | none => .error "due_date"
      | some due_date =>
        .ok ⟨case_id, invoice_date, due_date, p.notes⟩

-- ## Construction helpers

/-- Modelled from the spec: the external creation routine for `TimeEntry`
(§4.1, §8 of spec.md), absent from `src/`.  It receives a validated
`TimeEntryCreate`, the storage-assigned identifier and the creation
instant, computes `total_amount = hours × rate_per_hour` itself (the
payload carries no `total_amount`), and applies the declared default
`billable_status = "billable"` (models.py 326). -/
def mkTimeEntry (c : TimeEntryCreate) (id : Option Int) (now : DateTime) : TimeEntry :=
  { id := id
    activity_id := c.activity_id
    user_id := c.user_id
    hours := c.hours
    rate_per_hour := c.rate_per_hour
    total_amount := c.hours.mul c.rate_per_hour
    description := c.description
    date := c.date
    billable_status := .billable
    created_at := now }

/-- Modelled from the spec: the external creation routine for `Expense`
(§4.1, §8 of spec.md), absent from `src/`.  It computes
`total_amount = amount × (1 + markup_percentage / 100)` and applies the
declared defaults of models.py 337-356 for the fields the payload omits. -/
def mkExpense (c : ExpenseCreate) (id : Option Int) (now : DateTime) : Expense :=
  { id := id
    case_id := c.case_id
    user_id := c.user_id
    description := c.description
    expense_type := c.expense_type
    amount := c.amount
    markup_percentage := c.markup_percentage
    total_amount := c.amount.mul (Decimal.one.add (c.markup_percentage.divPow10 2))
    expense_date := c.expense_date
    category := c.category
    vendor := c.vendor
    receipt_file_path := none
    is_reimbursed := false
    created_at := now }

/-- Modelled from the spec: the external creation routine for `Activity`
(§4.1 of spec.md), absent from `src/`.  It applies the declared defaults
`status = "pending"` (models.py 294) and `billable_status = "non_billable"`
(models.py 295). -/
def mkActivity (c : ActivityCreate) (id : Option Int) (now : DateTime) : Activity :=
  { id := id
    case_id := c.case_id
    assigned_user_id := c.assigned_user_id
    title := c.title
    description := c.description
    activity_type := c.activity_type
    status := .pending
    billable_status := .non_billable
    due_date := c.due_date
    completed_date := none
    is_court_date := c.is_court_date
    is_critical_deadline := c.is_critical_deadline
    created_at := now
    updated_at := now }

/-- Modelled from the spec: the external creation routine for `Invoice`
(§4.1, §8 of spec.md), absent from `src/`.  Subtotals start at their
declared default `Decimal("0")` (models.py 375-376) and `total_amount` is
computed as their sum; the server assigns `invoice_number` and `status`. -/
def mkInvoice (c : InvoiceCreate) (invoice_number : String) (status : String)
    (id : Option Int) (now : DateTime) : Invoice :=
  { id := id
    case_id := c.case_id
    invoice_number := invoice_number
    invoice_date := c.invoice_date
    due_date := c.due_date
    subtotal_time := Decimal.zero
    subtotal_expenses := Decimal.zero
    total_amount := Decimal.zero.add Decimal.zero
    status := status
    notes := c.notes
    created_at := now
    sent_at := none
    paid_at := none }

/-- Modelled from the spec: the writer that stores invoice subtotals must
maintain `total_amount = subtotal_time + subtotal_expenses` (§3, §8 of
spec.md); the model itself never recomputes it. -/
def setInvoiceSubtotals (inv : Invoice) (st se : Decimal) : Invoice :=
  { inv with
    subtotal_time := st
    subtotal_expenses := se
    total_amount := st.add se }

-- ## Serialization
-- Modelled from the spec (Section 6 of spec.md): the external serialization
-- boundary.  A scalar is rendered as a tagged textual value; a decimal is
-- rendered as sign, base-10 digit string and its exact scale — never as a
-- binary float (the serialized form has no float representation at all).
-- Deserialization parses the tagged values back, then rejects the input
-- unless re-serializing the parsed entity reproduces it exactly, so a
-- wrong field name, a wrong tag, a category token outside its declared
-- set or a non-canonical digit string is rejected.

/-- Base-10 digits of a natural number, least significant first
(zero renders as the empty digit string). -/
def toDigits (n : Nat) : List Nat :=
  if h : n = 0 then [] else n % 10 :: toDigits (n / 10)
decreasing_by exact Nat.div_lt_self (Nat.pos_of_ne_zero h) (by norm_num)

/-- Value of a little-endian base-10 digit string. -/
def ofDigits : List Nat → Nat
  | [] => 0
  | d :: ds => d + 10 * ofDigits ds

/-- A serialized scalar: integer, string, boolean, decimal (sign, digit
string, scale) or absent.  There is deliberately no floating-point form. -/
inductive Ser where
  | sInt : Int → Ser
  | sStr : String → Ser
  | sBool : Bool → Ser
  | sDec : Bool → List Nat → Nat → Ser
  | sNull : Ser
deriving DecidableEq

/-- An in-memory field value: integer, string, boolean, decimal or absent.
Category members travel as their declared string token. -/
inductive FieldVal where
  | vInt : Int → FieldVal
  | vStr : String → FieldVal
  | vBool : Bool → FieldVal
  | vDec : Decimal → FieldVal
  | vNull : FieldVal
deriving DecidableEq

/-- Serialize one field value; a decimal becomes sign, digit string and its
exact scale. -/
def serF : FieldVal → Ser
  | .vInt i => .sInt i
  | .vStr s => .sStr s
  | .vBool b => .sBool b
  | .vDec d => .sDec (decide (d.mant < 0)) (toDigits d.mant.natAbs) d.scale
  | .vNull => .sNull

/-- Parse one serialized scalar back into a field value. -/
def deserF : Ser → FieldVal
  | .sInt i => .vInt i
  | .sStr s => .vStr s
  | .sBool b => .vBool b
  | .sDec b ds s => .vDec ⟨if b then -(ofDigits ds : Int) else (ofDigits ds : Int), s⟩
  | .sNull => .vNull

/-- Serialize a named record field by field. -/
def serRecord (r : List (String × FieldVal)) : List (String × Ser) :=
  r.map (fun p => (p.1, serF p.2))

/-- Parse a serialized record field by field. -/
def deserRecord (l : List (String × Ser)) : List (String × FieldVal) :=
  l.map (fun p => (p.1, deserF p.2))

/-- Value of the field at a position of a record (absent if out of range). -/
def fieldAt : List (String × FieldVal) → Nat → FieldVal
  | [], _ => .vNull
  | p :: _, 0 => p.2
  | _ :: r, k+1 => fieldAt r k

/-- An optional integer field: absent or an integer. -/
def optIntVal : Option Int → FieldVal
  | none => .vNull
  | some i => .vInt i

/-- An optional string field: absent or a string. -/
def optStrVal : Option String → FieldVal
  | none => .vNull
  | some s => .vStr s

/-- An optional decimal field: absent or a decimal. -/
def optDecVal : Option Decimal → FieldVal
  | none => .vNull
  | some d => .vDec d

def getInt : FieldVal → Int
  | .vInt i => i
  | _ => 0

def getStr : FieldVal → String
  | .vStr s => s
  | _ => ""

def getBool : FieldVal → Bool
  | .vBool b => b
  | _ => false

def getDec : FieldVal → Decimal
  | .vDec d => d
  | _ => Decimal.zero

def getOptInt : FieldVal → Option Int
  | .vInt i => some i
  | _ => none

def getOptStr : FieldVal → Option String
  | .vStr s => some s
  | _ => none

def getOptDec : FieldVal → Option Decimal
  | .vDec d => some d
  | _ => none

/-- Intermediate record form of `User`, named fields in declaration order. -/
def userRecord (u : User) : List (String × FieldVal) :=
  [("id", optIntVal u.id),
   ("email", .vStr u.email),
   ("first_name", .vStr u.first_name),
   ("last_name", .vStr u.last_name),
   ("role", .vStr u.role.toStr),
   ("is_active", .vBool u.is_active),
   ("phone", optStrVal u.phone),
   ("hourly_rate", optDecVal u.hourly_rate),
   ("created_at", .vInt u.created_at),
   ("updated_at", .vInt u.updated_at)]

def serUser (u : User) : List (String × Ser) :=
  serRecord (userRecord u)

def deserUser (l : List (String × Ser)) : Option User :=
  let r := deserRecord l
  match UserRole.ofString (getStr (fieldAt r 4)) with
  | none => none
  | some role =>
    let x : User :=
      ⟨getOptInt (fieldAt r 0), getStr (fieldAt r 1), getStr (fieldAt r 2), getStr (fieldAt r 3), role, getBool (fieldAt r 5), getOptStr (fieldAt r 6), getOptDec (fieldAt r 7), getInt (fieldAt r 8), getInt (fieldAt r 9)⟩
    if serUser x = l then some x else none

/-- Intermediate record form of `Client`, named fields in declaration order. -/
def clientRecord (c : Client) : List (String × FieldVal) :=
  [("id", optIntVal c.id),
   ("client_type", .vStr c.client_type.toStr),
   ("first_name", optStrVal c.first_name),
   ("last_name", optStrVal c.last_name),
   ("date_of_birth", optIntVal c.date_of_birth),
   ("organization_name", optStrVal c.organization_name),
   ("tax_id", optStrVal c.tax_id),
   ("email", optStrVal c.email),
   ("phone", optStrVal c.phone),
   ("address_line1", optStrVal c.address_line1),
   ("address_line2", optStrVal c.address_line2),
   ("city", optStrVal c.city),
   ("state", optStrVal c.state),
   ("zip_code", optStrVal c.zip_code),
   ("country", optStrVal c.country),
   ("is_active", .vBool c.is_active),
   ("created_at", .vInt c.created_at),
   ("updated_at", .vInt c.updated_at)]

def serClient (c : Client) : List (String × Ser) :=
  serRecord (clientRecord c)

def deserClient (l : List (String × Ser)) : Option Client :=
  let r := deserRecord l
  match ClientType.ofString (getStr (fieldAt r 1)) with
  | none => none
  | some client_type =>
    let x : Client :=
      ⟨getOptInt (fieldAt r 0), client_type, getOptStr (fieldAt r 2), getOptStr (fieldAt r 3), getOptInt (fieldAt r 4), getOptStr (fieldAt r 5), getOptStr (fieldAt r 6), getOptStr (fieldAt r 7), getOptStr (fieldAt r 8), getOptStr (fieldAt r 9), getOptStr (fieldAt r 10), getOptStr (fieldAt r 11), getOptStr (fieldAt r 12), getOptStr (fieldAt r 13), getOptStr (fieldAt r 14), getBool (fieldAt r 15), getInt (fieldAt r 16), getInt (fieldAt r 17)⟩
    if serClient x = l then some x else none

/-- Intermediate record form of `BeneficiaryRelationship`, named fields in declaration order. -/
def beneficiaryRelationshipRecord (b : BeneficiaryRelationship) : List (String × FieldVal) :=
  [("id", optIntVal b.id),
   ("beneficiary_id", .vInt b.beneficiary_id),
   ("dependent_id", .vInt b.dependent_id),
   ("relationship_type", .vStr b.relationship_type),
   ("created_at", .vInt b.created_at)]

def serBeneficiaryRelationship (b : BeneficiaryRelationship) : List (String × Ser) :=
  serRecord (beneficiaryRelationshipRecord b)

def deserBeneficiaryRelationship (l : List (String × Ser)) : Option BeneficiaryRelationship :=
  let r := deserRecord l
  let x : BeneficiaryRelationship :=
    ⟨getOptInt (fieldAt r 0), getInt (fieldAt r 1), getInt (fieldAt r 2), getStr (fieldAt r 3), getInt (fieldAt r 4)⟩
  if serBeneficiaryRelationship x = l then some x else none

/-- Intermediate record form of `CaseType`, named fields in declaration order. -/
def caseTypeRecord (c : CaseType) : List (String × FieldVal) :=
  [("id", optIntVal c.id),
   ("name", .vStr c.name),
   ("description", optStrVal c.description),
   ("default_billing_model", .vStr c.default_billing_model.toStr),
   ("default_hourly_rate", optDecVal c.default_hourly_rate),
   ("default_flat_fee", optDecVal c.default_flat_fee),
   ("is_active", .vBool c.is_active),
   ("created_at", .vInt c.created_at)]

def serCaseType (c : CaseType) : List (String × Ser) :=
  serRecord (caseTypeRecord c)

def deserCaseType (l : List (String × Ser)) : Option CaseType :=
  let r := deserRecord l
  match BillingModel.ofString (getStr (fieldAt r 3)) with
  | none => none
  | some default_billing_model =>
    let x : CaseType :=
      ⟨getOptInt (fieldAt r 0), getStr (fieldAt r 1), getOptStr (fieldAt r 2), default_billing_model, getOptDec (fieldAt r 4), getOptDec (fieldAt r 5), getBool (fieldAt r 6), getInt (fieldAt r 7)⟩
    if serCaseType x = l then some x else none

/-- Intermediate record form of `Case`, named fields in declaration order. -/
def caseRecord (c : Case) : List (String × FieldVal) :=
  [("id", optIntVal c.id),
   ("case_number", .vStr c.case_number),
   ("title", .vStr c.title),
   ("description", optStrVal c.description),
   ("status", .vStr c.status.toStr),
   ("client_id", .vInt c.client_id),
   ("case_type_id", .vInt c.case_type_id),
   ("assigned_attorney_id", optIntVal c.assigned_attorney_id),
   ("billing_model", .vStr c.billing_model.toStr),
   ("hourly_rate", optDecVal c.hourly_rate),
   ("flat_fee", optDecVal c.flat_fee),
   ("contingency_percentage", optDecVal c.contingency_percentage),
   ("retainer_amount", optDecVal c.retainer_amount),
   ("opened_date", optIntVal c.opened_date),
   ("closed_date", optIntVal c.closed_date),
   ("created_at", .vInt c.created_at),
   ("updated_at", .vInt c.updated_at)]

def serCase (c : Case) : List (String × Ser) :=
  serRecord (caseRecord c)

def deserCase (l : List (String × Ser)) : Option Case :=
  let r := deserRecord l
  match CaseStatus.ofString (getStr (fieldAt r 4)) with
  | none => none
  | some status =>
    match BillingModel.ofString (getStr (fieldAt r 8)) with
    | none => none
    | some billing_model =>
      let x : Case :=
        ⟨getOptInt (fieldAt r 0), getStr (fieldAt r 1), getStr (fieldAt r 2), getOptStr (fieldAt r 3), status, getInt (fieldAt r 5), getInt (fieldAt r 6), getOptInt (fieldAt r 7), billing_model, getOptDec (fieldAt r 9), getOptDec (fieldAt r 10), getOptDec (fieldAt r 11), getOptDec (fieldAt r 12), getOptInt (fieldAt r 13), getOptInt (fieldAt r 14), getInt (fieldAt r 15), getInt (fieldAt r 16)⟩
      if serCase x = l then some x else none

/-- Intermediate record form of `OpposingParty`, named fields in declaration order. -/
def opposingPartyRecord (o : OpposingParty) : List (String × FieldVal) :=
  [("id", optIntVal o.id),
   ("case_id", .vInt o.case_id),
   ("party_type", .vStr o.party_type.toStr),
   ("first_name", optStrVal o.first_name),
   ("last_name", optStrVal o.last_name),
   ("organization_name", optStrVal o.organization_name),
   ("email", optStrVal o.email),
   ("phone", optStrVal o.phone),
   ("address_line1", optStrVal o.address_line1),
   ("city", optStrVal o.city),
   ("state", optStrVal o.state),
   ("counsel_name", optStrVal o.counsel_name),
   ("counsel_firm", optStrVal o.counsel_firm),
   ("counsel_email", optStrVal o.counsel_email),
   ("counsel_phone", optStrVal o.counsel_phone),
   ("created_at", .vInt o.created_at)]

def serOpposingParty (o : OpposingParty) : List (String × Ser) :=
  serRecord (opposingPartyRecord o)

def deserOpposingParty (l : List (String × Ser)) : Option OpposingParty :=
  let r := deserRecord l
  match ClientType.ofString (getStr (fieldAt r 2)) with
  | none => none
  | some party_type =>
    let x : OpposingParty :=
      ⟨getOptInt (fieldAt r 0), getInt (fieldAt r 1), party_type, getOptStr (fieldAt r 3), getOptStr (fieldAt r 4), getOptStr (fieldAt r 5), getOptStr (fieldAt r 6), getOptStr (fieldAt r 7), getOptStr (fieldAt r 8), getOptStr (fieldAt r 9), getOptStr (fieldAt r 10), getOptStr (fieldAt r 11), getOptStr (fieldAt r 12), getOptStr (fieldAt r 13), getOptStr (fieldAt r 14), getInt (fieldAt r 15)⟩
    if serOpposingParty x = l then some x else none

/-- Intermediate record form of `Jurisdiction`, named fields in declaration order. -/
def jurisdictionRecord (j : Jurisdiction) : List (String × FieldVal) :=
  [("id", optIntVal j.id),
   ("name", .vStr j.name),
   ("jurisdiction_type", .vStr j.jurisdiction_type),
   ("description", optStrVal j.description),
   ("created_at", .vInt j.created_at)]

def serJurisdiction (j : Jurisdiction) : List (String × Ser) :=
  serRecord (jurisdictionRecord j)

def deserJurisdiction (l : List (String × Ser)) : Option Jurisdiction :=
  let r := deserRecord l
  let x : Jurisdiction :=
    ⟨getOptInt (fieldAt r 0), getStr (fieldAt r 1), getStr (fieldAt r 2), getOptStr (fieldAt r 3), getInt (fieldAt r 4)⟩
  if serJurisdiction x = l then some x else none

/-- Intermediate record form of `CaseJurisdiction`, named fields in declaration order. -/
def caseJurisdictionRecord (c : CaseJurisdiction) : List (String × FieldVal) :=
  [("id", optIntVal c.id),
   ("case_id", .vInt c.case_id),
   ("jurisdiction_id", .vInt c.jurisdiction_id),
   ("is_primary", .vBool c.is_primary),
   ("created_at", .vInt c.created_at)]

def serCaseJurisdiction (c : CaseJurisdiction) : List (String × Ser) :=
  serRecord (caseJurisdictionRecord c)

def deserCaseJurisdiction (l : List (String × Ser)) : Option CaseJurisdiction :=
  let r := deserRecord l
  let x : CaseJurisdiction :=
    ⟨getOptInt (fieldAt r 0), getInt (fieldAt r 1), getInt (fieldAt r 2), getBool (fieldAt r 3), getInt (fieldAt r 4)⟩
  if serCaseJurisdiction x = l then some x else none

/-- Intermediate record form of `Document`, named fields in declaration order. -/
def documentRecord (d : Document) : List (String × FieldVal) :=
  [("id", optIntVal d.id),
   ("case_id", .vInt d.case_id),
   ("title", .vStr d.title),
   ("description", optStrVal d.description),
   ("file_path", .vStr d.file_path),
   ("file_name", .vStr d.file_name),
   ("file_size", .vInt d.file_size),
   ("mime_type", .vStr d.mime_type),
   ("uploaded_by_id", .vInt d.uploaded_by_id),
   ("uploaded_at", .vInt d.uploaded_at)]

def serDocument (d : Document) : List (String × Ser) :=
  serRecord (documentRecord d)

def deserDocument (l : List (String × Ser)) : Option Document :=
  let r := deserRecord l
  let x : Document :=
    ⟨getOptInt (fieldAt r 0), getInt (fieldAt r 1), getStr (fieldAt r 2), getOptStr (fieldAt r 3), getStr (fieldAt r 4), getStr (fieldAt r 5), getInt (fieldAt r 6), getStr (fieldAt r 7), getInt (fieldAt r 8), getInt (fieldAt r 9)⟩
  if serDocument x = l then some x else none

/-- Intermediate record form of `Activity`, named fields in declaration order. -/
def activityRecord (a : Activity) : List (String × FieldVal) :=
  [("id", optIntVal a.id),
   ("case_id", .vInt a.case_id),
   ("assigned_user_id", optIntVal a.assigned_user_id),
   ("title", .vStr a.title),
   ("description", optStrVal a.description),
   ("activity_type", .vStr a.activity_type),
   ("status", .vStr a.status.toStr),
   ("billable_status", .vStr a.billable_status.toStr),
   ("due_date", optIntVal a.due_date),
   ("completed_date", optIntVal a.completed_date),
   ("is_court_date", .vBool a.is_court_date),
   ("is_critical_deadline", .vBool a.is_critical_deadline),
   ("created_at", .vInt a.created_at),
   ("updated_at", .vInt a.updated_at)]

def serActivity (a : Activity) : List (String × Ser) :=
  serRecord (activityRecord a)

def deserActivity (l : List (String × Ser)) : Option Activity :=
  let r := deserRecord l
  match ActivityStatus.ofString (getStr (fieldAt r 6)) with
  | none => none
  | some status =>
    match ActivityBillableStatus.ofString (getStr (fieldAt r 7)) with
    | none => none
    | some billable_status =>
      let x : Activity :=
        ⟨getOptInt (fieldAt r 0), getInt (fieldAt r 1), getOptInt (fieldAt r 2), getStr (fieldAt r 3), getOptStr (fieldAt r 4), getStr (fieldAt r 5), status, billable_status, getOptInt (fieldAt r 8), getOptInt (fieldAt r 9), getBool (fieldAt r 10), getBool (fieldAt r 11), getInt (fieldAt r 12), getInt (fieldAt r 13)⟩
      if serActivity x = l then some x else none

/-- Intermediate record form of `TimeEntry`, named fields in declaration order. -/
def timeEntryRecord (t : TimeEntry) : List (String × FieldVal) :=
  [("id", optIntVal t.id),
   ("activity_id", .vInt t.activity_id),
   ("user_id", .vInt t.user_id),
   ("hours", .vDec t.hours),
   ("rate_per_hour", .vDec t.rate_per_hour),
   ("total_amount", .vDec t.total_amount),
   ("description", .vStr t.description),
   ("date", .vInt t.date),
   ("billable_status", .vStr t.billable_status.toStr),
   ("created_at", .vInt t.created_at)]

def serTimeEntry (t : TimeEntry) : List (String × Ser) :=
  serRecord (timeEntryRecord t)

def deserTimeEntry (l : List (String × Ser)) : Option TimeEntry :=
  let r := deserRecord l
  match ActivityBillableStatus.ofString (getStr (fieldAt r 8)) with
  | none => none
  | some billable_status =>
    let x : TimeEntry :=
      ⟨getOptInt (fieldAt r 0), getInt (fieldAt r 1), getInt (fieldAt r 2), getDec (fieldAt r 3), getDec (fieldAt r 4), getDec (fieldAt r 5), getStr (fieldAt r 6), getInt (fieldAt r 7), billable_status, getInt (fieldAt r 9)⟩
    if serTimeEntry x = l then some x else none

/-- Intermediate record form of `Expense`, named fields in declaration order. -/
def expenseRecord (e : Expense) : List (String × FieldVal) :=
  [("id", optIntVal e.id),
   ("case_id", .vInt e.case_id),
   ("user_id", .vInt e.user_id),
   ("description", .vStr e.description),
   ("expense_type", .vStr e.expense_type.toStr),
   ("amount", .vDec e.amount),
   ("markup_percentage", .vDec e.markup_percentage),
   ("total_amount", .vDec e.total_amount),
   ("expense_date", .vInt e.expense_date),
   ("category", .vStr e.category),
   ("vendor", optStrVal e.vendor),
   ("receipt_file_path", optStrVal e.receipt_file_path),
   ("is_reimbursed", .vBool e.is_reimbursed),
   ("created_at", .vInt e.created_at)]

def serExpense (e : Expense) : List (String × Ser) :=
  serRecord (expenseRecord e)

def deserExpense (l : List (String × Ser)) : Option Expense :=
  let r := deserRecord l
  match ExpenseType.ofString (getStr (fieldAt r 4)) with
  | none => none
  | some expense_type =>
    let x : Expense :=
      ⟨getOptInt (fieldAt r 0), getInt (fieldAt r 1), getInt (fieldAt r 2), getStr (fieldAt r 3), expense_type, getDec (fieldAt r 5), getDec (fieldAt r 6), getDec (fieldAt r 7), getInt (fieldAt r 8), getStr (fieldAt r 9), getOptStr (fieldAt r 10), getOptStr (fieldAt r 11), getBool (fieldAt r 12), getInt (fieldAt r 13)⟩
    if serExpense x = l then some x else none

/-- Intermediate record form of `Invoice`, named fields in declaration order. -/
def invoiceRecord (i : Invoice) : List (String × FieldVal) :=
  [("id", optIntVal i.id),
   ("case_id", .vInt i.case_id),
   ("invoice_number", .vStr i.invoice_number),
   ("invoice_date", .vInt i.invoice_date),
   ("due_date", .vInt i.due_date),
   ("subtotal_time", .vDec i.subtotal_time),
   ("subtotal_expenses", .vDec i.subtotal_expenses),
   ("total_amount", .vDec i.total_amount),
   ("status", .vStr i.status),
   ("notes", optStrVal i.notes),
   ("created_at", .vInt i.created_at),
   ("sent_at", optIntVal i.sent_at),
   ("paid_at", optIntVal i.paid_at)]

def serInvoice (i : Invoice) : List (String × Ser) :=
  serRecord (invoiceRecord i)

def deserInvoice (l : List (String × Ser)) : Option Invoice :=
  let r := deserRecord l
  let x : Invoice :=
    ⟨getOptInt (fieldAt r 0), getInt (fieldAt r 1), getStr (fieldAt r 2), getInt (fieldAt r 3), getInt (fieldAt r 4), getDec (fieldAt r 5), getDec (fieldAt r 6), getDec (fieldAt r 7), getStr (fieldAt r 8), getOptStr (fieldAt r 9), getInt (fieldAt r 10), getOptInt (fieldAt r 11), getOptInt (fieldAt r 12)⟩
  if serInvoice x = l then some x else none

/-- Intermediate record form of `InvoiceLineItem`, named fields in declaration order. -/
def invoiceLineItemRecord (l : InvoiceLineItem) : List (String × FieldVal) :=
  [("id", optIntVal l.id),
   ("invoice_id", .vInt l.invoice_id),
   ("time_entry_id", optIntVal l.time_entry_id),
   ("expense_id", optIntVal l.expense_id),
   ("line_type", .vStr l.line_type),
   ("date", .vInt l.date),
   ("resource_name", .vStr l.resource_name),
   ("resource_type", .vStr l.resource_type.toStr),
   ("description", .vStr l.description),
   ("quantity", .vDec l.quantity),
   ("rate", .vDec l.rate),
   ("amount", .vDec l.amount),
   ("created_at", .vInt l.created_at)]

def serInvoiceLineItem (l : InvoiceLineItem) : List (String × Ser) :=
  serRecord (invoiceLineItemRecord l)

def deserInvoiceLineItem (l : List (String × Ser)) : Option InvoiceLineItem :=
  let r := deserRecord l
  match ResourceType.ofString (getStr (fieldAt r 7)) with
  | none => none
  | some resource_type =>
    let x : InvoiceLineItem :=
      ⟨getOptInt (fieldAt r 0), getInt (fieldAt r 1), getOptInt (fieldAt r 2), getOptInt (fieldAt r 3), getStr (fieldAt r 4), getInt (fieldAt r 5), getStr (fieldAt r 6), resource_type, getStr (fieldAt r 8), getDec (fieldAt r 9), getDec (fieldAt r 10), getDec (fieldAt r 11), getInt (fieldAt r 12)⟩
    if serInvoiceLineItem x = l then some x else none

/-- Intermediate record form of `TrustAccount`, named fields in declaration order. -/
def trustAccountRecord (t : TrustAccount) : List (String × FieldVal) :=
  [("id", optIntVal t.id),
   ("account_name", .vStr t.account_name),
   ("account_number", .vStr t.account_number),
   ("bank_name", .vStr t.bank_name),
   ("current_balance", .vDec t.current_balance),
   ("is_active", .vBool t.is_active),
   ("created_at", .vInt t.created_at)]

def serTrustAccount (t : TrustAccount) : List (String × Ser) :=
  serRecord (trustAccountRecord t)

def deserTrustAccount (l : List (String × Ser)) : Option TrustAccount :=
  let r := deserRecord l
  let x : TrustAccount :=
    ⟨getOptInt (fieldAt r 0), getStr (fieldAt r 1), getStr (fieldAt r 2), getStr (fieldAt r 3), getDec (fieldAt r 4), getBool (fieldAt r 5), getInt (fieldAt r 6)⟩
  if serTrustAccount x = l then some x else none

/-- Intermediate record form of `TrustTransaction`, named fields in declaration order. -/
def trustTransactionRecord (t : TrustTransaction) : List (String × FieldVal) :=
  [("id", optIntVal t.id),
   ("trust_account_id", .vInt t.trust_account_id),
   ("case_id", .vInt t.case_id),
   ("transaction_type", .vStr t.transaction_type.toStr),
   ("amount", .vDec t.amount),
   ("description", .vStr t.description),
   ("reference_number", optStrVal t.reference_number),
   ("transaction_date", .vInt t.transaction_date),
   ("created_at", .vInt t.created_at)]

def serTrustTransaction (t : TrustTransaction) : List (String × Ser) :=
  serRecord (trustTransactionRecord t)

def deserTrustTransaction (l : List (String × Ser)) : Option TrustTransaction :=
  let r := deserRecord l
  match TransactionType.ofString (getStr (fieldAt r 3)) with
  | none => none
  | some transaction_type =>
    let x : TrustTransaction :=
      ⟨getOptInt (fieldAt r 0), getInt (fieldAt r 1), getInt (fieldAt r 2), transaction_type, getDec (fieldAt r 4), getStr (fieldAt r 5), getOptStr (fieldAt r 6), getInt (fieldAt r 7), getInt (fieldAt r 8)⟩
    if serTrustTransaction x = l then some x else none

/-- Intermediate record form of `Account`, named fields in declaration order. -/
def accountRecord (a : Account) : List (String × FieldVal) :=
  [("id", optIntVal a.id),
   ("account_number", .vStr a.account_number),
   ("account_name", .vStr a.account_name),
   ("account_type", .vStr a.account_type.toStr),
   ("parent_account_id", optIntVal a.parent_account_id),
   ("description", optStrVal a.description),
   ("is_active", .vBool a.is_active),
   ("created_at", .vInt a.created_at)]

def serAccount (a : Account) : List (String × Ser) :=
  serRecord (accountRecord a)

def deserAccount (l : List (String × Ser)) : Option Account :=
  let r := deserRecord l
  match AccountType.ofString (getStr (fieldAt r 3)) with
  | none => none
  | some account_type =>
    let x : Account :=
      ⟨getOptInt (fieldAt r 0), getStr (fieldAt r 1), getStr (fieldAt r 2), account_type, getOptInt (fieldAt r 4), getOptStr (fieldAt r 5), getBool (fieldAt r 6), getInt (fieldAt r 7)⟩
    if serAccount x = l then some x else none

/-- Intermediate record form of `JournalEntry`, named fields in declaration order. -/
def journalEntryRecord (j : JournalEntry) : List (String × FieldVal) :=
  [("id", optIntVal j.id),
   ("account_id", .vInt j.account_id),
   ("entry_date", .vInt j.entry_date),
   ("reference_number", optStrVal j.reference_number),
   ("description", .vStr j.description),
   ("debit_amount", .vDec j.debit_amount),
   ("credit_amount", .vDec j.credit_amount),
   ("source_type", optStrVal j.source_type),
   ("source_id", optIntVal j.source_id),
   ("created_at", .vInt j.created_at),
   ("created_by_id", .vInt j.created_by_id)]

def serJournalEntry (j : JournalEntry) : List (String × Ser) :=
  serRecord (journalEntryRecord j)

def deserJournalEntry (l : List (String × Ser)) : Option JournalEntry :=
  let r := deserRecord l
  let x : JournalEntry :=
    ⟨getOptInt (fieldAt r 0), getInt (fieldAt r 1), getInt (fieldAt r 2), getOptStr (fieldAt r 3), getStr (fieldAt r 4), getDec (fieldAt r 5), getDec (fieldAt r 6), getOptStr (fieldAt r 7), getOptInt (fieldAt r 8), getInt (fieldAt r 9), getInt (fieldAt r 10)⟩
  if serJournalEntry x = l then some x else none

-- ## Account store (general-ledger tree)

/-- Identifiers present in a collection of accounts. -/
def accountIds (σ : List Account) : List Int :=
  σ.filterMap (fun a => a.id)

/-- First account carrying the given identifier. -/
def findAccount (σ : List Account) (i : Int) : Option Account :=
  σ.find? (fun a => a.id == some i)

/-- One step along a `parent_account_id` link (absent when the identifier
does not resolve or the account has no parent). -/
def parentStep (σ : List Account) (i : Int) : Option Int :=
  (findAccount σ i).bind (fun a => a.parent_account_id)

/-- Follow `parent_account_id` links for exactly `n` steps. -/
def iterParent (σ : List Account) : Nat → Int → Option Int
  | 0, i => some i
  | n + 1, i => (parentStep σ i).bind (iterParent σ n)

/-- Ancestor identifiers visited from `start` within `fuel` steps. -/
def ancestorsFrom (σ : List Account) : Nat → Option Int → List Int
  | _, none => []
  | 0, some _ => []
  | fuel + 1, some i => i :: ancestorsFrom σ fuel (parentStep σ i)

/-- Modelled from the spec: the external creation routine for `Account`
(Sections 8 and 9 of spec.md), absent from `src/`.  A new account is
rejected when its identifier is missing or already taken (primary-key
uniqueness), when its declared parent does not exist (referential
integrity of the `parent_account_id` foreign key, spec Section 7), or when
following parent links from that parent would reach the new account itself
(cycle detection, spec Section 8). -/
def addAccount (σ : List Account) (a : Account) : Option (List Account) :=
  match a.id with
  | none => none
  | some i =>
    if i ∈ accountIds σ then none
    else
      match a.parent_account_id with
      | none => some (σ ++ [a])
      | some p =>
        if p ∈ accountIds σ ∧ i ∉ ancestorsFrom (σ ++ [a]) (σ.length + 1) (some p)
        then some (σ ++ [a]) else none

/-- Collections of accounts reachable by repeated successful insertions
starting from the empty ledger. -/
inductive Built : List Account → Prop where
  | nil : Built []
  | snoc {σ : List Account} {a : Account} {σ' : List Account} :
      Built σ → addAccount σ a = some σ' → Built σ'

/-- Ordering invariant of a built ledger: every resolvable parent link
points at an account whose identifier was inserted strictly earlier. -/
def Orderly (σ : List Account) : Prop :=
  (accountIds σ).Nodup ∧
  ∀ a ∈ σ, ∀ i, a.id = some i → ∀ p, a.parent_account_id = some p →
    p ∈ accountIds σ ∧ (accountIds σ).indexOf p < (accountIds σ).indexOf i

/-- Sample ledger root account. -/
def demoAccount1 : Account :=
  ⟨some 1, "1000", "Assets", AccountType.asset, none, none, true, 0⟩

/-- Sample ledger child account, parented to the root. -/
def demoAccount2 : Account :=
  ⟨some 2, "1100", "Cash", AccountType.asset, some 1, none, true, 0⟩

/-- Sample ledger obtained by two successful insertions. -/
def demoLedger : List Account := [demoAccount1, demoAccount2]

/-- Sample rejected account whose parent link points at itself. -/
def selfLoopAccount : Account :=
  ⟨some 7, "9000", "Loop", AccountType.expense, some 7, none, true, 0⟩

-- ## Field descriptors of the write API
-- Each list gives (field name, required) for an entity or "Create" schema
-- in declaration order; a field is required exactly when its source
-- declaration has no default and is not Optional.  Relationship accessors
-- are ORM navigation, not fields.

def userFields : List (String × Bool) :=
  [("id", false), ("email", true), ("first_name", true),
   ("last_name", true), ("role", true), ("is_active", false),
   ("phone", false), ("hourly_rate", false), ("created_at", false),
   ("updated_at", false)]

def clientFields : List (String × Bool) :=
  [("id", false), ("client_type", true), ("first_name", false),
   ("last_name", false), ("date_of_birth", false),
   ("organization_name", false), ("tax_id", false), ("email", false),
   ("phone", false), ("address_line1", false), ("address_line2", false),
   ("city", false), ("state", false), ("zip_code", false),
   ("country", false), ("is_active", false), ("created_at", false),
   ("updated_at", false)]

def caseFields : List (String × Bool) :=
  [("id", false), ("case_number", true), ("title", true),
   ("description", false), ("status", false), ("client_id", true),
   ("case_type_id", true), ("assigned_attorney_id", false),
   ("billing_model", true), ("hourly_rate", false), ("flat_fee", false),
   ("contingency_percentage", false), ("retainer_amount", false),
   ("opened_date", false), ("closed_date", false), ("created_at", false),
   ("updated_at", false)]

def activityFields : List (String × Bool) :=
  [("id", false), ("case_id", true), ("assigned_user_id", false),
   ("title", true), ("description", false), ("activity_type", true),
   ("status", false), ("billable_status", false), ("due_date", false),
   ("completed_date", false), ("is_court_date", false),
   ("is_critical_deadline", false), ("created_at", false),
   ("updated_at", false)]

def timeEntryFields : List (String × Bool) :=
  [("id", false), ("activity_id", true), ("user_id", true),
   ("hours", true), ("rate_per_hour", true), ("total_amount", true),
   ("description", true), ("date", true), ("billable_status", false),
   ("created_at", false)]

def expenseFields : List (String × Bool) :=
  [("id", false), ("case_id", true), ("user_id", true),
   ("description", true), ("expense_type", true), ("amount", true),
   ("markup_percentage", false), ("total_amount", true),
   ("expense_date", true), ("category", true), ("vendor", false),
   ("receipt_file_path", false), ("is_reimbursed", false),
   ("created_at", false)]

def invoiceFields : List (String × Bool) :=
  [("id", false), ("case_id", true), ("invoice_number", true),
   ("invoice_date", true), ("due_date", true), ("subtotal_time", false),
   ("subtotal_expenses", false), ("total_amount", true), ("status", true),
   ("notes", false), ("created_at", false), ("sent_at", false),
   ("paid_at", false)]

def userCreateFields : List (String × Bool) :=
  [("email", true), ("first_name", true), ("last_name", true),
   ("role", true), ("phone", false), ("hourly_rate", false)]

def clientCreateFields : List (String × Bool) :=
  [("client_type", true), ("first_name", false), ("last_name", false),
   ("organization_name", false), ("email", false), ("phone", false)]

def caseCreateFields : List (String × Bool) :=
  [("case_number", true), ("title", true), ("description", false),
   ("client_id", true), ("case_type_id", true),
   ("assigned_attorney_id", false), ("billing_model", true)]

def activityCreateFields : List (String × Bool) :=
  [("case_id", true), ("assigned_user_id", false), ("title", true),
   ("description", false), ("activity_type", true), ("due_date", false),
   ("is_court_date", false), ("is_critical_deadline", false)]

def timeEntryCreateFields : List (String × Bool) :=
  [("activity_id", true), ("user_id", true), ("hours", true),
   ("rate_per_hour", true), ("description", true), ("date", true)]

def expenseCreateFields : List (String × Bool) :=
  [("case_id", true), ("user_id", true), ("description", true),
   ("expense_type", true), ("amount", true), ("markup_percentage", false),
   ("expense_date", true), ("category", true), ("vendor", false)]

def invoiceCreateFields : List (String × Bool) :=
  [("case_id", true), ("invoice_date", true), ("due_date", true),
   ("notes", false)]

/-- Server-assigned field names a "Create" schema must not contain:
the identifier, the creation/update timestamps and the computed totals. -/
def serverAssignedFields : List String :=
  ["id", "created_at", "updated_at", "total_amount", "subtotal_time",
   "subtotal_expenses"]

-- ## Helper lemmas

theorem Decimal.toRat_mul (a b : Decimal) :
    (a.mul b).toRat = a.toRat * b.toRat := by
  simp only [Decimal.mul, Decimal.toRat, pow_add, Int.cast_mul]
  rw [div_mul_div_comm]

theorem Decimal.toRat_add (a b : Decimal) :
    (a.add b).toRat = a.toRat + b.toRat := by
  have ha : (10 : ℚ) ^ max a.scale b.scale
      = 10 ^ (max a.scale b.scale - a.scale) * 10 ^ a.scale := by
    rw [← pow_add, Nat.sub_add_cancel (Nat.le_max_left _ _)]
  have hb : (10 : ℚ) ^ max a.scale b.scale
      = 10 ^ (max a.scale b.scale - b.scale) * 10 ^ b.scale := by
    rw [← pow_add, Nat.sub_add_cancel (Nat.le_max_right _ _)]
  simp only [Decimal.add, Decimal.toRat]
  push_cast
  rw [add_div]
  congr 1
  · rw [ha, mul_comm ((a.mant : ℚ)) _, mul_div_mul_left _ _ (by positivity)]
  · rw [hb, mul_comm ((b.mant : ℚ)) _, mul_div_mul_left _ _ (by positivity)]

theorem Decimal.toRat_divPow10 (d : Decimal) (k : Nat) :
    (d.divPow10 k).toRat = d.toRat / 10 ^ k := by
  simp only [Decimal.divPow10, Decimal.toRat, pow_add, div_div]

theorem Decimal.toRat_one : Decimal.one.toRat = 1 := by
  simp [Decimal.one, Decimal.toRat]

theorem Decimal.toRat_zero : Decimal.zero.toRat = 0 := by
  simp [Decimal.zero, Decimal.toRat]

theorem ofDigits_toDigits (n : Nat) : ofDigits (toDigits n) = n := by
  induction n using Nat.strong_induction_on with
  | _ n ih =>
    rw [toDigits]
    split
    · rename_i h
      simp [ofDigits, h]
    · rename_i h
      rw [ofDigits, ih (n / 10) (Nat.div_lt_self (Nat.pos_of_ne_zero h) (by norm_num))]
      omega

theorem deserF_serF (v : FieldVal) : deserF (serF v) = v := by
  cases v with
  | vDec d =>
    obtain ⟨m, s⟩ := d
    simp only [serF, deserF, ofDigits_toDigits, FieldVal.vDec.injEq,
               Decimal.mk.injEq, and_true]
    by_cases h : m < 0
    · rw [if_pos (by simpa using h)]
      omega
    · rw [if_neg (by simpa using h)]
      omega
  | _ => rfl

theorem deserRecord_serRecord (r : List (String × FieldVal)) :
    deserRecord (serRecord r) = r := by
  induction r with
  | nil => rfl
  | cons p r ih =>
    obtain ⟨n, v⟩ := p
    simp only [serRecord, deserRecord, List.map_map] at ih ⊢
    simp [deserF_serF, ih]

theorem getOptInt_val (v : Option Int) : getOptInt (optIntVal v) = v := by
  cases v <;> rfl

theorem getOptStr_val (v : Option String) : getOptStr (optStrVal v) = v := by
  cases v <;> rfl

theorem getOptDec_val (v : Option Decimal) : getOptDec (optDecVal v) = v := by
  cases v <;> rfl


theorem ofString_toStr_userRole (x : UserRole) :
    UserRole.ofString (UserRole.toStr x) = some x := by
  cases x <;> rfl

theorem ofString_not_mem_userRole (s : String) (h : s ∉ UserRole.values) :
    UserRole.ofString s = none := by
  simp only [UserRole.values, List.mem_cons, List.mem_singleton, not_or] at h
  obtain ⟨h1, h2, h3, h4, h5, h6, h7, h8, h9⟩ := h
  simp [UserRole.ofString, h1, h2, h3, h4, h5, h6, h7, h8, h9]

theorem ofString_toStr_clientType (x : ClientType) :
    ClientType.ofString (ClientType.toStr x) = some x := by
  cases x <;> rfl

theorem ofString_not_mem_clientType (s : String) (h : s ∉ ClientType.values) :
    ClientType.ofString s = none := by
  simp only [ClientType.values, List.mem_cons, List.mem_singleton, not_or] at h
  obtain ⟨h1, h2⟩ := h
  simp [ClientType.ofString, h1, h2]

theorem ofString_toStr_caseStatus (x : CaseStatus) :
    CaseStatus.ofString (CaseStatus.toStr x) = some x := by
  cases x <;> rfl

theorem ofString_not_mem_caseStatus (s : String) (h : s ∉ CaseStatus.values) :
    CaseStatus.ofString s = none := by
  simp only [CaseStatus.values, List.mem_cons, List.mem_singleton, not_or] at h
  obtain ⟨h1, h2, h3, h4⟩ := h
  simp [CaseStatus.ofString, h1, h2, h3, h4]

theorem ofString_toStr_activityBillableStatus (x : ActivityBillableStatus) :
    ActivityBillableStatus.ofString (ActivityBillableStatus.toStr x) = some x := by
  cases x <;> rfl

theorem ofString_not_mem_activityBillableStatus (s : String) (h : s ∉ ActivityBillableStatus.values) :
    ActivityBillableStatus.ofString s = none := by
  simp only [ActivityBillableStatus.values, List.mem_cons, List.mem_singleton, not_or] at h
  obtain ⟨h1, h2, h3⟩ := h
  simp [ActivityBillableStatus.ofString, h1, h2, h3]

theorem ofString_toStr_activityStatus (x : ActivityStatus) :
    ActivityStatus.ofString (ActivityStatus.toStr x) = some x := by
  cases x <;> rfl

theorem ofString_not_mem_activityStatus (s : String) (h : s ∉ ActivityStatus.values) :
    ActivityStatus.ofString s = none := by
  simp only [ActivityStatus.values, List.mem_cons, List.mem_singleton, not_or] at h
  obtain ⟨h1, h2, h3, h4⟩ := h
  simp [ActivityStatus.ofString, h1, h2, h3, h4]

theorem ofString_toStr_billingModel (x : BillingModel) :
    BillingModel.ofString (BillingModel.toStr x) = some x := by
  cases x <;> rfl

theorem ofString_not_mem_billingModel (s : String) (h : s ∉ BillingModel.values) :
    BillingModel.ofString s = none := by
  simp only [BillingModel.values, List.mem_cons, List.mem_singleton, not_or] at h
  obtain ⟨h1, h2, h3, h4⟩ := h
  simp [BillingModel.ofString, h1, h2, h3, h4]

theorem ofString_toStr_expenseType (x : ExpenseType) :
    ExpenseType.ofString (ExpenseType.toStr x) = some x := by
  cases x <;> rfl

theorem ofString_not_mem_expenseType (s : String) (h : s ∉ ExpenseType.values) :
    ExpenseType.ofString s = none := by
  simp only [ExpenseType.values, List.mem_cons, List.mem_singleton, not_or] at h
  obtain ⟨h1, h2⟩ := h
  simp [ExpenseType.ofString, h1, h2]

theorem ofString_toStr_resourceType (x : ResourceType) :
    ResourceType.ofString (ResourceType.toStr x) = some x := by
  cases x <;> rfl

theorem ofString_not_mem_resourceType (s : String) (h : s ∉ ResourceType.values) :
    ResourceType.ofString s = none := by
  simp only [ResourceType.values, List.mem_cons, List.mem_singleton, not_or] at h
  obtain ⟨h1, h2, h3⟩ := h
  simp [ResourceType.ofString, h1, h2, h3]

theorem ofString_toStr_transactionType (x : TransactionType) :
    TransactionType.ofString (TransactionType.toStr x) = some x := by
  cases x <;> rfl

theorem ofString_not_mem_transactionType (s : String) (h : s ∉ TransactionType.values) :
    TransactionType.ofString s = none := by
  simp only [TransactionType.values, List.mem_cons, List.mem_singleton, not_or] at h
  obtain ⟨h1, h2, h3, h4⟩ := h
  simp [TransactionType.ofString, h1, h2, h3, h4]

theorem ofString_toStr_accountType (x : AccountType) :
    AccountType.ofString (AccountType.toStr x) = some x := by
  cases x <;> rfl

theorem ofString_not_mem_accountType (s : String) (h : s ∉ AccountType.values) :
    AccountType.ofString s = none := by
  simp only [AccountType.values, List.mem_cons, List.mem_singleton, not_or] at h
  obtain ⟨h1, h2, h3, h4, h5⟩ := h
  simp [AccountType.ofString, h1, h2, h3, h4, h5]

-- Serialization round-trips, one per entity.

theorem deserUser_serUser (x : User) : deserUser (serUser x) = some x := by
  obtain ⟨f1, f2, f3, f4, f5, f6, f7, f8, f9, f10⟩ := x
  simp only [deserUser, serUser, deserRecord_serRecord]
  simp only [userRecord, fieldAt, getOptInt_val, getOptStr_val, getOptDec_val,
             getStr, getInt, getBool, getDec, ofString_toStr_userRole]
  simp

theorem deserClient_serClient (x : Client) : deserClient (serClient x) = some x := by
  obtain ⟨f1, f2, f3, f4, f5, f6, f7, f8, f9, f10, f11, f12, f13, f14, f15, f16, f17, f18⟩ := x
  simp only [deserClient, serClient, deserRecord_serRecord]
  simp only [clientRecord, fieldAt, getOptInt_val, getOptStr_val, getOptDec_val,
             getStr, getInt, getBool, getDec, ofString_toStr_clientType]
  simp

theorem deserBeneficiaryRelationship_serBeneficiaryRelationship (x : BeneficiaryRelationship) : deserBeneficiaryRelationship (serBeneficiaryRelationship x) = some x := by
  obtain ⟨f1, f2, f3, f4, f5⟩ := x
  simp only [deserBeneficiaryRelationship, serBeneficiaryRelationship, deserRecord_serRecord]
  simp only [beneficiaryRelationshipRecord, fieldAt, getOptInt_val, getOptStr_val, getOptDec_val,
             getStr, getInt, getBool, getDec]
  simp

theorem deserCaseType_serCaseType (x : CaseType) : deserCaseType (serCaseType x) = some x := by
  obtain ⟨f1, f2, f3, f4, f5, f6, f7, f8⟩ := x
  simp only [deserCaseType, serCaseType, deserRecord_serRecord]
  simp only [caseTypeRecord, fieldAt, getOptInt_val, getOptStr_val, getOptDec_val,
             getStr, getInt, getBool, getDec, ofString_toStr_billingModel]
  simp

theorem deserCase_serCase (x : Case) : deserCase (serCase x) = some x := by
  obtain ⟨f1, f2, f3, f4, f5, f6, f7, f8, f9, f10, f11, f12, f13, f14, f15, f16, f17⟩ := x
  simp only [deserCase, serCase, deserRecord_serRecord]
  simp only [caseRecord, fieldAt, getOptInt_val, getOptStr_val, getOptDec_val,
             getStr, getInt, getBool, getDec, ofString_toStr_billingModel, ofString_toStr_caseStatus]
  simp

theorem deserOpposingParty_serOpposingParty (x : OpposingParty) : deserOpposingParty (serOpposingParty x) = some x := by
  obtain ⟨f1, f2, f3, f4, f5, f6, f7, f8, f9, f10, f11, f12, f13, f14, f15, f16⟩ := x
  simp only [deserOpposingParty, serOpposingParty, deserRecord_serRecord]
  simp only [opposingPartyRecord, fieldAt, getOptInt_val, getOptStr_val, getOptDec_val,
             getStr, getInt, getBool, getDec, ofString_toStr_clientType]
  simp

theorem deserJurisdiction_serJurisdiction (x : Jurisdiction) : deserJurisdiction (serJurisdiction x) = some x := by
  obtain ⟨f1, f2, f3, f4, f5⟩ := x
  simp only [deserJurisdiction, serJurisdiction, deserRecord_serRecord]
  simp only [jurisdictionRecord, fieldAt, getOptInt_val, getOptStr_val, getOptDec_val,
             getStr, getInt, getBool, getDec]
  simp

theorem deserCaseJurisdiction_serCaseJurisdiction (x : CaseJurisdiction) : deserCaseJurisdiction (serCaseJurisdiction x) = some x := by
  obtain ⟨f1, f2, f3, f4, f5⟩ := x
  simp only [deserCaseJurisdiction, serCaseJurisdiction, deserRecord_serRecord]
  simp only [caseJurisdictionRecord, fieldAt, getOptInt_val, getOptStr_val, getOptDec_val,
             getStr, getInt, getBool, getDec]
  simp

theorem deserDocument_serDocument (x : Document) : deserDocument (serDocument x) = some x := by
  obtain ⟨f1, f2, f3, f4, f5, f6, f7, f8, f9, f10⟩ := x
  simp only [deserDocument, serDocument, deserRecord_serRecord]
  simp only [documentRecord, fieldAt, getOptInt_val, getOptStr_val, getOptDec_val,
             getStr, getInt, getBool, getDec]
  simp

theorem deserActivity_serActivity (x : Activity) : deserActivity (serActivity x) = some x := by
  obtain ⟨f1, f2, f3, f4, f5, f6, f7, f8, f9, f10, f11, f12, f13, f14⟩ := x
  simp only [deserActivity, serActivity, deserRecord_serRecord]
  simp only [activityRecord, fieldAt, getOptInt_val, getOptStr_val, getOptDec_val,
             getStr, getInt, getBool, getDec, ofString_toStr_activityBillableStatus, ofString_toStr_activityStatus]
  simp

theorem deserTimeEntry_serTimeEntry (x : TimeEntry) : deserTimeEntry (serTimeEntry x) = some x := by
  obtain ⟨f1, f2, f3, f4, f5, f6, f7, f8, f9, f10⟩ := x
  simp only [deserTimeEntry, serTimeEntry, deserRecord_serRecord]
  simp only [timeEntryRecord, fieldAt, getOptInt_val, getOptStr_val, getOptDec_val,
             getStr, getInt, getBool, getDec, ofString_toStr_activityBillableStatus]
  simp

theorem deserExpense_serExpense (x : Expense) : deserExpense (serExpense x) = some x := by
  obtain ⟨f1, f2, f3, f4, f5, f6, f7, f8, f9, f10, f11, f12, f13, f14⟩ := x
  simp only [deserExpense, serExpense, deserRecord_serRecord]
  simp only [expenseRecord, fieldAt, getOptInt_val, getOptStr_val, getOptDec_val,
             getStr, getInt, getBool, getDec, ofString_toStr_expenseType]
  simp

theorem deserInvoice_serInvoice (x : Invoice) : deserInvoice (serInvoice x) = some x := by
  obtain ⟨f1, f2, f3, f4, f5, f6, f7, f8, f9, f10, f11, f12, f13⟩ := x
  simp only [deserInvoice, serInvoice, deserRecord_serRecord]
  simp only [invoiceRecord, fieldAt, getOptInt_val, getOptStr_val, getOptDec_val,
             getStr, getInt, getBool, getDec]
  simp

theorem deserInvoiceLineItem_serInvoiceLineItem (x : InvoiceLineItem) : deserInvoiceLineItem (serInvoiceLineItem x) = some x := by
  obtain ⟨f1, f2, f3, f4, f5, f6, f7, f8, f9, f10, f11, f12, f13⟩ := x
  simp only [deserInvoiceLineItem, serInvoiceLineItem, deserRecord_serRecord]
  simp only [invoiceLineItemRecord, fieldAt, getOptInt_val, getOptStr_val, getOptDec_val,
             getStr, getInt, getBool, getDec, ofString_toStr_resourceType]
  simp

theorem deserTrustAccount_serTrustAccount (x : TrustAccount) : deserTrustAccount (serTrustAccount x) = some x := by
  obtain ⟨f1, f2, f3, f4, f5, f6, f7⟩ := x
  simp only [deserTrustAccount, serTrustAccount, deserRecord_serRecord]
  simp only [trustAccountRecord, fieldAt, getOptInt_val, getOptStr_val, getOptDec_val,
             getStr, getInt, getBool, getDec]
  simp

theorem deserTrustTransaction_serTrustTransaction (x : TrustTransaction) : deserTrustTransaction (serTrustTransaction x) = some x := by
  obtain ⟨f1, f2, f3, f4, f5, f6, f7, f8, f9⟩ := x
  simp only [deserTrustTransaction, serTrustTransaction, deserRecord_serRecord]
  simp only [trustTransactionRecord, fieldAt, getOptInt_val, getOptStr_val, getOptDec_val,
             getStr, getInt, getBool, getDec, ofString_toStr_transactionType]
  simp

theorem deserAccount_serAccount (x : Account) : deserAccount (serAccount x) = some x := by
  obtain ⟨f1, f2, f3, f4, f5, f6, f7, f8⟩ := x
  simp only [deserAccount, serAccount, deserRecord_serRecord]
  simp only [accountRecord, fieldAt, getOptInt_val, getOptStr_val, getOptDec_val,
             getStr, getInt, getBool, getDec, ofString_toStr_accountType]
  simp

theorem deserJournalEntry_serJournalEntry (x : JournalEntry) : deserJournalEntry (serJournalEntry x) = some x := by
  obtain ⟨f1, f2, f3, f4, f5, f6, f7, f8, f9, f10, f11⟩ := x
  simp only [deserJournalEntry, serJournalEntry, deserRecord_serRecord]
  simp only [journalEntryRecord, fieldAt, getOptInt_val, getOptStr_val, getOptDec_val,
             getStr, getInt, getBool, getDec]
  simp

-- Lemmas about the account store.

theorem mem_accountIds {σ : List Account} {i : Int} :
    i ∈ accountIds σ ↔ ∃ a ∈ σ, a.id = some i := by
  simp [accountIds, List.mem_filterMap]

theorem findAccount_mem {σ : List Account} {i : Int} {a : Account}
    (h : findAccount σ i = some a) : a ∈ σ :=
  List.mem_of_find?_eq_some h

theorem findAccount_id {σ : List Account} {i : Int} {a : Account}
    (h : findAccount σ i = some a) : a.id = some i := by
  have hp := List.find?_some h
  simpa using hp

theorem parentStep_exists {σ : List Account} {i p : Int}
    (h : parentStep σ i = some p) :
    ∃ a ∈ σ, a.id = some i ∧ a.parent_account_id = some p := by
  unfold parentStep at h
  cases hf : findAccount σ i with
  | none => rw [hf] at h; simp at h
  | some a =>
    rw [hf] at h
    simp only [Option.some_bind] at h
    exact ⟨a, findAccount_mem hf, findAccount_id hf, h⟩

theorem parentStep_lt {σ : List Account} (ho : Orderly σ) {i p : Int}
    (h : parentStep σ i = some p) :
    p ∈ accountIds σ ∧ (accountIds σ).indexOf p < (accountIds σ).indexOf i := by
  obtain ⟨a, ha, hid, hp⟩ := parentStep_exists h
  exact ho.2 a ha i hid p hp

theorem iterParent_lt {σ : List Account} (ho : Orderly σ) :
    ∀ (n : Nat) (i j : Int), iterParent σ (n + 1) i = some j →
      j ∈ accountIds σ ∧ (accountIds σ).indexOf j < (accountIds σ).indexOf i := by
  intro n
  induction n with
  | zero =>
    intro i j h
    simp only [iterParent] at h
    cases hp : parentStep σ i with
    | none => rw [hp] at h; simp at h
    | some p =>
      rw [hp] at h
      simp only [Option.some_bind, iterParent, Option.some.injEq] at h
      subst h
      exact parentStep_lt ho hp
  | succ n ih =>
    intro i j h
    rw [show n + 1 + 1 = (n + 1) + 1 from rfl] at h
    simp only [iterParent] at h
    cases hp : parentStep σ i with
    | none => rw [hp] at h; simp at h
    | some p =>
      rw [hp] at h
      simp only [Option.some_bind] at h
      obtain ⟨hmem, hlt⟩ := ih p j h
      exact ⟨hmem, lt_trans hlt (parentStep_lt ho hp).2⟩

theorem accountIds_snoc {σ : List Account} {a : Account} {i : Int}
    (h : a.id = some i) : accountIds (σ ++ [a]) = accountIds σ ++ [i] := by
  simp [accountIds, List.filterMap_append, h]

theorem addAccount_some {σ : List Account} {a : Account} {σ' : List Account}
    (h : addAccount σ a = some σ') :
    σ' = σ ++ [a] ∧ ∃ i, a.id = some i ∧ i ∉ accountIds σ ∧
      ∀ p, a.parent_account_id = some p → p ∈ accountIds σ := by
  unfold addAccount at h
  split at h
  · cases h
  · rename_i i hid
    split at h
    · cases h
    · rename_i hmem
      split at h
      · rename_i hp
        refine ⟨(Option.some.inj h).symm, i, hid, hmem, ?_⟩
        intro p hpc
        rw [hp] at hpc
        cases hpc
      · rename_i p hp
        split at h
        · rename_i hc
          refine ⟨(Option.some.inj h).symm, i, hid, hmem, ?_⟩
          intro q hq
          rw [hp] at hq
          exact Option.some.inj hq ▸ hc.1
        · cases h

theorem Built_orderly {σ : List Account} (h : Built σ) : Orderly σ := by
  induction h with
  | nil =>
    refine ⟨List.nodup_nil, ?_⟩
    intro a ha
    cases ha
  | snoc hb hadd ih =>
    obtain ⟨rfl, i, hid, hfresh, hparent⟩ := addAccount_some hadd
    constructor
    · rw [accountIds_snoc hid, List.nodup_append]
      refine ⟨ih.1, List.nodup_singleton _, ?_⟩
      intro x hx hx1
      simp only [List.mem_singleton] at hx1
      subst hx1
      exact hfresh hx
    · intro b hbmem j hjd p hp
      rw [accountIds_snoc hid]
      rcases List.mem_append.mp hbmem with hbo | hba
      · obtain ⟨hpm, hlt⟩ := ih.2 b hbo j hjd p hp
        have hjm : j ∈ accountIds _ := mem_accountIds.mpr ⟨b, hbo, hjd⟩
        rw [List.indexOf_append_of_mem hpm, List.indexOf_append_of_mem hjm]
        exact ⟨List.mem_append_left _ hpm, hlt⟩
      · simp only [List.mem_singleton] at hba
        subst hba
        rw [hid] at hjd
        rw [← Option.some.inj hjd]
        have hpm := hparent p hp
        refine ⟨List.mem_append_left _ hpm, ?_⟩
        rw [List.indexOf_append_of_mem hpm,
            List.indexOf_append_of_not_mem hfresh, List.indexOf_cons_self]
        have hplen : (accountIds _).indexOf p < (accountIds _).length :=
          List.indexOf_lt_length.mpr hpm
        omega

theorem addAccount_rejects_cycle (σ : List Account) (a : Account) (i p : Int)
    (hid : a.id = some i) (hp : a.parent_account_id = some p)
    (hcyc : i ∈ ancestorsFrom (σ ++ [a]) (σ.length + 1) (some p)) :
    addAccount σ a = none := by
  unfold addAccount
  split
  · rfl
  · rename_i j hj
    rw [hid] at hj
    obtain rfl : j = i := (Option.some.inj hj).symm
    by_cases hmem : j ∈ accountIds σ
    · rw [if_pos hmem]
    · rw [if_neg hmem]
      split
      · rename_i hpn
        rw [hp] at hpn
        cases hpn
      · rename_i q hq
        rw [hp] at hq
        obtain rfl : q = p := (Option.some.inj hq).symm
        rw [if_neg (fun hc => hc.2 hcyc)]


-- ## Claim theorems

/-- C1: every `TimeEntry` produced by the construction helper from a
`TimeEntryCreate` payload carries the payload's `hours` and `rate_per_hour`
unchanged and has `total_amount` numerically equal to
`hours × rate_per_hour`; in particular `hours = 2.5` (`⟨25, 1⟩`) and
`rate_per_hour = 150.00` (`⟨15000, 2⟩`) give `total_amount = 375.00`
(`⟨37500, 2⟩`), and the helper computes it — the `TimeEntryCreate` shape has
no `total_amount` field a caller could supply. -/
theorem spec_c1_time_entry_total :
    (∀ (c : TimeEntryCreate) (id : Option Int) (now : DateTime),
        ((mkTimeEntry c id now).total_amount).toRat
            = (c.hours).toRat * (c.rate_per_hour).toRat
          ∧ (mkTimeEntry c id now).hours = c.hours
          ∧ (mkTimeEntry c id now).rate_per_hour = c.rate_per_hour)
  ∧ ((mkTimeEntry ⟨1, 1, ⟨25, 1⟩, ⟨15000, 2⟩, "case research", 0⟩ none 0).total_amount).toRat
        = Decimal.toRat ⟨37500, 2⟩
  ∧ timeEntryCreateFields.all (fun f => decide (f.1 ≠ "total_amount")) = true := by
  refine ⟨?_, ?_, by decide⟩
  · intro c id now
    exact ⟨Decimal.toRat_mul c.hours c.rate_per_hour, rfl, rfl⟩
  · norm_num [mkTimeEntry, Decimal.mul, Decimal.toRat]

/-- C2: every `Expense` constructed from an `ExpenseCreate` payload has
`total_amount` numerically equal to `amount × (1 + markup_percentage / 100)`;
in particular `amount = 100.00` (`⟨10000, 2⟩`) and `markup_percentage = 10`
(`⟨10, 0⟩`) give `total_amount = 110.00` (`⟨11000, 2⟩`). -/
theorem spec_c2_expense_total :
    (∀ (c : ExpenseCreate) (id : Option Int) (now : DateTime),
        ((mkExpense c id now).total_amount).toRat
          = (c.amount).toRat * (1 + (c.markup_percentage).toRat / 100))
  ∧ ((mkExpense ⟨1, 1, "filing fee", ExpenseType.reimbursable, ⟨10000, 2⟩,
        ⟨10, 0⟩, 0, "Filing Fees", none⟩ none 0).total_amount).toRat
      = Decimal.toRat ⟨11000, 2⟩ := by
  constructor
  · intro c id now
    simp only [mkExpense, Decimal.toRat_mul, Decimal.toRat_add,
               Decimal.toRat_divPow10, Decimal.toRat_one]
    norm_num
  · norm_num [mkExpense, Decimal.mul, Decimal.add, Decimal.divPow10,
              Decimal.one, Decimal.toRat]

/-- C7: the invoice construction helper and the subtotal writer both
maintain `total_amount` numerically equal to
`subtotal_time + subtotal_expenses`; in particular storing
`subtotal_time = 500.00` and `subtotal_expenses = 50.00` yields
`total_amount = 550.00`. -/
theorem spec_c7_invoice_total :
    (∀ (inv : Invoice) (st se : Decimal),
        ((setInvoiceSubtotals inv st se).total_amount).toRat
            = st.toRat + se.toRat
          ∧ (setInvoiceSubtotals inv st se).subtotal_time = st
          ∧ (setInvoiceSubtotals inv st se).subtotal_expenses = se)
  ∧ (∀ (c : InvoiceCreate) (num st : String) (id : Option Int)
        (now : DateTime),
        ((mkInvoice c num st id now).total_amount).toRat
          = ((mkInvoice c num st id now).subtotal_time).toRat
            + ((mkInvoice c num st id now).subtotal_expenses).toRat)
  ∧ (∀ inv : Invoice,
        ((setInvoiceSubtotals inv ⟨50000, 2⟩ ⟨5000, 2⟩).total_amount).toRat
          = Decimal.toRat ⟨55000, 2⟩) := by
  refine ⟨?_, ?_, ?_⟩
  · intro inv st se
    exact ⟨Decimal.toRat_add st se, rfl, rfl⟩
  · intro c num st id now
    exact Decimal.toRat_add Decimal.zero Decimal.zero
  · intro inv
    norm_num [setInvoiceSubtotals, Decimal.add, Decimal.toRat]

/-- C10: when `billable_status` is not supplied at construction, the
helpers default it to `"billable"` for a `TimeEntry` (models.py 326) but to
`"non_billable"` for an `Activity` (models.py 295) — two different members
of the shared `ActivityBillableStatus` category. -/
theorem spec_c10_billable_defaults :
    (∀ (c : TimeEntryCreate) (id : Option Int) (now : DateTime),
        (mkTimeEntry c id now).billable_status
          = ActivityBillableStatus.billable)
  ∧ (∀ (c : ActivityCreate) (id : Option Int) (now : DateTime),
        (mkActivity c id now).billable_status
          = ActivityBillableStatus.non_billable)
  ∧ (ActivityBillableStatus.billable == ActivityBillableStatus.non_billable)
      = false :=
  ⟨fun _ _ _ => rfl, fun _ _ _ => rfl, by decide⟩

/-- C5 counterexample: the model does not declare nine category sets — the
declared list has ten entries (role, client type, case status, billable
status, activity status, billing model, expense type, resource type,
transaction type, account type). -/
theorem spec_c5_counterexample : (categorySets.length = 9) = False :=
  eq_false (by decide)

/-- C5 (amended): the model defines exactly ten closed category sets —
role, client type, case status, billable status, activity status, billing
model, expense type, resource type, transaction type, account type — with
pairwise distinct names, each restricting a field to a fixed, duplicate-free,
non-empty set of string values. -/
theorem spec_c5_ten_category_sets :
    categorySets.length = 10
  ∧ (categorySets.map Prod.fst).Nodup
  ∧ categorySets.all (fun c => !c.2.isEmpty && decide c.2.Nodup) = true := by
  refine ⟨by decide, by decide, by decide⟩

/-- C6: for every entity value of each of the eighteen entities,
serializing and deserializing reproduces the value exactly — every field,
including each `Decimal` field's mantissa and exact declared scale; the
serialized form has no floating-point representation at all. -/
theorem spec_c6_serialization_roundtrip :
    (∀ x : User, deserUser (serUser x) = some x)
  ∧ (∀ x : Client, deserClient (serClient x) = some x)
  ∧ (∀ x : BeneficiaryRelationship,
      deserBeneficiaryRelationship (serBeneficiaryRelationship x) = some x)
  ∧ (∀ x : CaseType, deserCaseType (serCaseType x) = some x)
  ∧ (∀ x : Case, deserCase (serCase x) = some x)
  ∧ (∀ x : OpposingParty, deserOpposingParty (serOpposingParty x) = some x)
  ∧ (∀ x : Jurisdiction, deserJurisdiction (serJurisdiction x) = some x)
  ∧ (∀ x : CaseJurisdiction,
      deserCaseJurisdiction (serCaseJurisdiction x) = some x)
  ∧ (∀ x : Document, deserDocument (serDocument x) = some x)
  ∧ (∀ x : Activity, deserActivity (serActivity x) = some x)
  ∧ (∀ x : TimeEntry, deserTimeEntry (serTimeEntry x) = some x)
  ∧ (∀ x : Expense, deserExpense (serExpense x) = some x)
  ∧ (∀ x : Invoice, deserInvoice (serInvoice x) = some x)
  ∧ (∀ x : InvoiceLineItem,
      deserInvoiceLineItem (serInvoiceLineItem x) = some x)
  ∧ (∀ x : TrustAccount, deserTrustAccount (serTrustAccount x) = some x)
  ∧ (∀ x : TrustTransaction,
      deserTrustTransaction (serTrustTransaction x) = some x)
  ∧ (∀ x : Account, deserAccount (serAccount x) = some x)
  ∧ (∀ x : JournalEntry, deserJournalEntry (serJournalEntry x) = some x) :=
  ⟨deserUser_serUser, deserClient_serClient,
   deserBeneficiaryRelationship_serBeneficiaryRelationship,
   deserCaseType_serCaseType, deserCase_serCase,
   deserOpposingParty_serOpposingParty, deserJurisdiction_serJurisdiction,
   deserCaseJurisdiction_serCaseJurisdiction, deserDocument_serDocument,
   deserActivity_serActivity, deserTimeEntry_serTimeEntry,
   deserExpense_serExpense, deserInvoice_serInvoice,
   deserInvoiceLineItem_serInvoiceLineItem,
   deserTrustAccount_serTrustAccount,
   deserTrustTransaction_serTrustTransaction, deserAccount_serAccount,
   deserJournalEntry_serJournalEntry⟩

/-- C9: each of the seven "Create" schemas lists only fields that its
persistent entity also declares, with the same name and the same
optionality, and none of them contains a server-assigned field — no
identifier, no creation or update timestamp, no computed total
(`total_amount`, `subtotal_time`, `subtotal_expenses`). -/
theorem spec_c9_create_shapes :
    (userCreateFields.all (fun f => decide (f ∈ userFields)) = true
      ∧ userCreateFields.all
          (fun f => decide (f.1 ∉ serverAssignedFields)) = true)
  ∧ (clientCreateFields.all (fun f => decide (f ∈ clientFields)) = true
      ∧ clientCreateFields.all
          (fun f => decide (f.1 ∉ serverAssignedFields)) = true)
  ∧ (caseCreateFields.all (fun f => decide (f ∈ caseFields)) = true
      ∧ caseCreateFields.all
          (fun f => decide (f.1 ∉ serverAssignedFields)) = true)
  ∧ (activityCreateFields.all (fun f => decide (f ∈ activityFields)) = true
      ∧ activityCreateFields.all
          (fun f => decide (f.1 ∉ serverAssignedFields)) = true)
  ∧ (timeEntryCreateFields.all
        (fun f => decide (f ∈ timeEntryFields)) = true
      ∧ timeEntryCreateFields.all
          (fun f => decide (f.1 ∉ serverAssignedFields)) = true)
  ∧ (expenseCreateFields.all (fun f => decide (f ∈ expenseFields)) = true
      ∧ expenseCreateFields.all
          (fun f => decide (f.1 ∉ serverAssignedFields)) = true)
  ∧ (invoiceCreateFields.all (fun f => decide (f ∈ invoiceFields)) = true
      ∧ invoiceCreateFields.all
          (fun f => decide (f.1 ∉ serverAssignedFields)) = true) := by
  refine ⟨⟨by decide, by decide⟩, ⟨by decide, by decide⟩,
          ⟨by decide, by decide⟩, ⟨by decide, by decide⟩,
          ⟨by decide, by decide⟩, ⟨by decide, by decide⟩,
          ⟨by decide, by decide⟩⟩


/-- C4: every category-restricted parse rejects any string outside its
declared value set — for all ten category sets — and in particular a raw
`UserCreate` payload carrying `role = "superadmin"` fails validation. -/
theorem spec_c4_category_rejection :
    (∀ s : String, s ∉ UserRole.values → UserRole.ofString s = none)
  ∧ (∀ s : String, s ∉ ClientType.values → ClientType.ofString s = none)
  ∧ (∀ s : String, s ∉ CaseStatus.values → CaseStatus.ofString s = none)
  ∧ (∀ s : String, s ∉ ActivityBillableStatus.values →
      ActivityBillableStatus.ofString s = none)
  ∧ (∀ s : String, s ∉ ActivityStatus.values →
      ActivityStatus.ofString s = none)
  ∧ (∀ s : String, s ∉ BillingModel.values → BillingModel.ofString s = none)
  ∧ (∀ s : String, s ∉ ExpenseType.values → ExpenseType.ofString s = none)
  ∧ (∀ s : String, s ∉ ResourceType.values → ResourceType.ofString s = none)
  ∧ (∀ s : String, s ∉ TransactionType.values →
      TransactionType.ofString s = none)
  ∧ (∀ s : String, s ∉ AccountType.values → AccountType.ofString s = none)
  ∧ isError (validateUserCreate ⟨some "admin@firm.test", some "Ada",
      some "Lovelace", some "superadmin", none, none⟩) = true :=
  ⟨ofString_not_mem_userRole, ofString_not_mem_clientType,
   ofString_not_mem_caseStatus, ofString_not_mem_activityBillableStatus,
   ofString_not_mem_activityStatus, ofString_not_mem_billingModel,
   ofString_not_mem_expenseType, ofString_not_mem_resourceType,
   ofString_not_mem_transactionType, ofString_not_mem_accountType,
   by decide⟩

/-- Witness for C4 at the concrete token of the spec. -/
theorem spec_c4_witness : UserRole.ofString "superadmin" = none :=
  spec_c4_category_rejection.1 "superadmin" (by decide)

/-- C3: for each of the seven "Create" validation schemas, a raw payload
missing any required field is rejected (the structured error names the
offending field), and a payload with every required field present and
every optional field absent is accepted with the optional fields set to
their declared defaults (absent for plain optionals, `false` for the
activity flags, `Decimal("0")` for `markup_percentage`). -/
theorem spec_c3_create_validation :
    (∀ p : UserCreatePayload,
        (p.email = none ∨ p.first_name = none ∨ p.last_name = none ∨
          p.role = none) → isError (validateUserCreate p) = true)
  ∧ (∀ (e f l : String) (r : UserRole),
      validateUserCreate ⟨some e, some f, some l, some r.toStr, none, none⟩
        = .ok ⟨e, f, l, r, none, none⟩)
  ∧ (∀ p : ClientCreatePayload,
        p.client_type = none → isError (validateClientCreate p) = true)
  ∧ (∀ t : ClientType,
      validateClientCreate ⟨some t.toStr, none, none, none, none, none⟩
        = .ok ⟨t, none, none, none, none, none⟩)
  ∧ (∀ p : CaseCreatePayload,
        (p.case_number = none ∨ p.title = none ∨ p.client_id = none ∨
          p.case_type_id = none ∨ p.billing_model = none) →
        isError (validateCaseCreate p) = true)
  ∧ (∀ (cn t : String) (ci cti : Int) (bm : BillingModel),
      validateCaseCreate
          ⟨some cn, some t, none, some ci, some cti, none, some bm.toStr⟩
        = .ok ⟨cn, t, none, ci, cti, none, bm⟩)
  ∧ (∀ p : ActivityCreatePayload,
        (p.case_id = none ∨ p.title = none ∨ p.activity_type = none) →
        isError (validateActivityCreate p) = true)
  ∧ (∀ (ci : Int) (t ty : String),
      validateActivityCreate
          ⟨some ci, none, some t, none, some ty, none, none, none⟩
        = .ok ⟨ci, none, t, none, ty, none, false, false⟩)
  ∧ (∀ p : TimeEntryCreatePayload,
        (p.activity_id = none ∨ p.user_id = none ∨ p.hours = none ∨
          p.rate_per_hour = none ∨ p.description = none ∨ p.date = none) →
        isError (validateTimeEntryCreate p) = true)
  ∧ (∀ (ai ui : Int) (h r : Decimal) (d : String) (dt : DateTime),
      validateTimeEntryCreate
          ⟨some ai, some ui, some h, some r, some d, some dt⟩
        = .ok ⟨ai, ui, h, r, d, dt⟩)
  ∧ (∀ p : ExpenseCreatePayload,
        (p.case_id = none ∨ p.user_id = none ∨ p.description = none ∨
          p.expense_type = none ∨ p.amount = none ∨ p.expense_date = none ∨
          p.category = none) → isError (validateExpenseCreate p) = true)
  ∧ (∀ (ci ui : Int) (d : String) (et : ExpenseType) (a : Decimal)
        (ed : DateTime) (cat : String),
      validateExpenseCreate ⟨some ci, some ui, some d, some et.toStr,
          some a, none, some ed, some cat, none⟩
        = .ok ⟨ci, ui, d, et, a, Decimal.zero, ed, cat, none⟩)
  ∧ (∀ p : InvoiceCreatePayload,
        (p.case_id = none ∨ p.invoice_date = none ∨ p.due_date = none) →
        isError (validateInvoiceCreate p) = true)
  ∧ (∀ (ci : Int) (idt ddt : DateTime),
      validateInvoiceCreate ⟨some ci, some idt, some ddt, none⟩
        = .ok ⟨ci, idt, ddt, none⟩) := by
  refine ⟨?_, ?_, ?_, ?_, ?_, ?_, ?_, ?_, ?_, ?_, ?_, ?_, ?_, ?_⟩
  · intro p h
    obtain ⟨e, f, l, r, ph, hr⟩ := p
    cases e <;> cases f <;> cases l <;> cases r <;>
      simp_all [validateUserCreate, isError]
  · intro e f l r
    simp [validateUserCreate, ofString_toStr_userRole]
  · intro p h
    obtain ⟨ct, f, l, o, e, ph⟩ := p
    cases ct <;> simp_all [validateClientCreate, isError]
  · intro t
    simp [validateClientCreate, ofString_toStr_clientType]
  · intro p h
    obtain ⟨cn, t, d, ci, cti, aa, bm⟩ := p
    cases cn <;> cases t <;> cases ci <;> cases cti <;> cases bm <;>
      simp_all [validateCaseCreate, isError]
  · intro cn t ci cti bm
    simp [validateCaseCreate, ofString_toStr_billingModel]
  · intro p h
    obtain ⟨ci, au, t, d, ty, dd, icd, icdl⟩ := p
    cases ci <;> cases t <;> cases ty <;>
      simp_all [validateActivityCreate, isError]
  · intro ci t ty
    simp [validateActivityCreate]
  · intro p h
    obtain ⟨ai, ui, hrs, r, d, dt⟩ := p
    cases ai <;> cases ui <;> cases hrs <;> cases r <;> cases d <;>
      cases dt <;> simp_all [validateTimeEntryCreate, isError]
  · intro ai ui h r d dt
    simp [validateTimeEntryCreate]
  · intro p h
    obtain ⟨ci, ui, d, et, a, mp, ed, cat, ven⟩ := p
    rcases et with _ | s
    · cases ci <;> cases ui <;> cases d <;> cases a <;> cases ed <;>
        cases cat <;> simp_all [validateExpenseCreate, isError]
    · rcases hq : ExpenseType.ofString s with _ | t <;>
        cases ci <;> cases ui <;> cases d <;> cases a <;> cases ed <;>
        cases cat <;> simp_all [validateExpenseCreate, isError]
  · intro ci ui d et a ed cat
    simp [validateExpenseCreate, ofString_toStr_expenseType, Option.getD]
  · intro p h
    obtain ⟨ci, idt, ddt, nt⟩ := p
    cases ci <;> cases idt <;> cases ddt <;>
      simp_all [validateInvoiceCreate, isError]
  · intro ci idt ddt
    simp [validateInvoiceCreate]

/-- Witness for C3: a payload with no `client_type` is rejected. -/
theorem spec_c3_witness :
    isError (validateClientCreate ⟨none, none, none, none, none, none⟩)
      = true :=
  spec_c3_create_validation.2.2.1 ⟨none, none, none, none, none, none⟩ rfl

/-- C8: the account creation routine rejects any `Account` whose
`parent_account_id` chain (followed inside the ledger it would join) leads
back to the account itself, and consequently in every ledger reachable by
successful insertions from the empty one, following `parent_account_id`
links any positive number of steps never returns to the starting
account. -/
theorem spec_c8_account_acyclic :
    (∀ (σ : List Account) (a : Account) (i p : Int), a.id = some i →
        a.parent_account_id = some p →
        i ∈ ancestorsFrom (σ ++ [a]) (σ.length + 1) (some p) →
        addAccount σ a = none)
  ∧ (∀ σ : List Account, Built σ → ∀ i ∈ accountIds σ, ∀ n : Nat,
        iterParent σ (n + 1) i ≠ some i) := by
  refine ⟨addAccount_rejects_cycle, ?_⟩
  intro σ hb i _hi n hiter
  obtain ⟨_, hlt⟩ := iterParent_lt (Built_orderly hb) n i i hiter
  exact lt_irrefl _ hlt

/-- Witness for C8: a self-parented account is rejected, and in a concrete
two-account ledger built by two successful insertions the parent chain
never returns to the root. -/
theorem spec_c8_witness :
    addAccount [] selfLoopAccount = none
  ∧ iterParent demoLedger 1 1 ≠ some 1 := by
  constructor
  · exact spec_c8_account_acyclic.1 [] selfLoopAccount 7 7 rfl rfl (by decide)
  · have h1 : addAccount [] demoAccount1 = some [demoAccount1] := by decide
    have h2 : addAccount [demoAccount1] demoAccount2 = some demoLedger := by
      decide
    exact spec_c8_account_acyclic.2 demoLedger
      (Built.snoc (Built.snoc Built.nil h1) h2) 1 (by decide) 0


end App
